import Mathlib

/-!
MeshNet layer 3 / layer 4 (iPower/MeshNet.cpp).

A shallow embedding of the device-side protocol engine of `MeshNet.cpp`:
the global variables become the fields of `State`, every function becomes a
function on `State`, and the calls the code makes into its collaborators
(`sendPacket` of the layer-2 drivers, `onCommandReceived` of layer 7) are
recorded, in program order, as a list of `Event`s.

Conventions.

* `unsigned char`, `uint8_t`, `uint16_t`, `uint32_t` values are natural
  numbers; a reduction modulo `2^w` is written wherever the C code can wrap
  (`random()` stored in a `uint32_t`, `childTableLen++`, ...).
* A result `none` stands for undefined behaviour of the C program: an access
  outside an array, or outside the buffer that was handed to the function.
* Packed structs are lists of bytes, multi-byte fields little-endian, as on
  the AVR and x86 targets of the library.
* The debug printing (`DEBUG_PRINT`, `printf`, `printPacket`) has no effect on
  the state and is left out.
-/

namespace MeshNet

/-! ## Constants of the source -/

/-- The source line is `#define MAX_CHILD_TABLE_LEN 5`. -/
def MAX_CHILD_TABLE_LEN : Nat := 5

/-- Number of elements of the array declared as `routingTableRow routingTable[5]`. -/
def ROUTING_TABLE_SIZE : Nat := 5

/-- The source line is `#define DATA_TO_BASE 0x00`. -/
def DATA_TO_BASE : Nat := 0

/-- The source line is `#define DATA_TO_DEVICE 0x01`. -/
def DATA_TO_DEVICE : Nat := 1

/-- The source line is `#define BEACON_TYPE 0x02`. -/
def BEACON_TYPE : Nat := 2

/-- The source line is `#define BEACON_CHILD_RESPONSE_TYPE 0x03`. -/
def BEACON_CHILD_RESPONSE_TYPE : Nat := 3

/-- The source line is `#define BEACON_PARENT_RESPONSE_TYPE 0x04`. -/
def BEACON_PARENT_RESPONSE_TYPE : Nat := 4

/-- The source line is `#define ASSIGN_ADDRESS_TYPE 0x05`. -/
def ASSIGN_ADDRESS_TYPE : Nat := 5

/-! ## Bytes -/

/-- The four bytes of a `uint32_t` in a packed struct, least significant first.
The value is truncated to 32 bits. -/
def le32 (n : Nat) : List Nat :=
  [n % 256, n / 256 % 256, n / 65536 % 256, n / 16777216 % 256]

/-- Read of the `unsigned char` at offset `i` of a buffer; `none` outside it. -/
def rd8 (m : List Nat) (i : Nat) : Option Nat := m[i]?

/-- Read of a packed little-endian `uint16_t` at offset `i` of a buffer. -/
def rd16 (m : List Nat) (i : Nat) : Option Nat :=
  match m[i]?, m[i + 1]? with
  | some a, some b => some (a + 256 * b)
  | _, _ => none

/-- Read of a packed little-endian `uint32_t` at offset `i` of a buffer. -/
def rd32 (m : List Nat) (i : Nat) : Option Nat :=
  match m[i]?, m[i + 1]?, m[i + 2]?, m[i + 3]? with
  | some a, some b, some c, some d => some (a + 256 * b + 65536 * c + 16777216 * d)
  | _, _, _, _ => none

/-! ## Data model -/

/-- The struct `childTableRow`. -/
structure childTableRow where
  childNonce : Nat
  interface : Nat
  macAddress : Nat
deriving DecidableEq, Repr

/-- The struct `routingTableRow`. -/
structure routingTableRow where
  address : Nat
  maxRoute : Nat
  interface : Nat
  macAddress : Nat
deriving DecidableEq, Repr

/-- The global variables of `MeshNet.cpp` that the code assigns.
`childTable` and `routingTable` are the backing arrays (five elements each in
the source); `childTableLen` and `routingTableLen` are the row counters. -/
structure State where
  childTable : List childTableRow
  childTableLen : Nat
  routingTable : List routingTableRow
  routingTableLen : Nat
  toBaseInterface : Nat
  toBaseMacAddress : Nat
  myAddress : Nat
  baseNonce : Nat
  myChildNonce : Nat
  newBaseNonce : Nat
  newToBaseInterface : Nat
  newToBaseMacAddress : Nat
  newMyChildNonce : Nat
deriving DecidableEq, Repr

/-- What the code is compiled and linked against.
`networkId` and `networkKey` are globals of `MeshNet.cpp` that the code never
assigns (initialised to 10101 and 80808 "only for tests"). `deviceType`,
`deviceUniqueId` and `NUM_INTERFACES` are declared in `MeshNet.h`, which is
not part of the sources at hand. `calculateHmac` is the HMAC routine with the
argument order of the source `(packet, len, key, keyLen)`; the body that the
source currently compiles is `MeshNet.calculateHmac` below. `sizeofPointer`
and `sizeModulus` give `sizeof(assignAddress *)` and `SIZE_MAX + 1` of the
target, which the expression `sizeof(rec)-4` depends on. -/
structure Env where
  networkId : Nat
  networkKey : Nat
  deviceType : Nat
  deviceUniqueId : Nat
  NUM_INTERFACES : Nat
  calculateHmac : List Nat → Nat → List Nat → Nat → Nat
  sizeofPointer : Nat
  sizeModulus : Nat

/-- The body of `calculateHmac` as the source has it: the call of `hmac_sha1`
is commented out and the function is `return 100;`. -/
def calculateHmac (_packet : List Nat) (_len : Nat) (_key : List Nat) (_keyLen : Nat) : Nat :=
  100

/-- A call from the engine into a collaborator.
`sendPacket bytes interface macAddress` is a call
`sendPacket(p, len, interface, macAddress)` where `bytes` are the `len` bytes
at `p`; `onCommandReceived command data len` is the layer-7 callback with the
`len` bytes at its data pointer. -/
inductive Event where
  | sendPacket (bytes : List Nat) (interface : Nat) (macAddress : Nat)
  | onCommandReceived (command : Nat) (data : List Nat) (len : Nat)
deriving DecidableEq, Repr

/-- The state after static initialisation: every global is zero except the two
initialised with `-1`, which a `uint8_t` holds as 255. -/
def initialState : State :=
  { childTable := List.replicate MAX_CHILD_TABLE_LEN ⟨0, 0, 0⟩
    childTableLen := 0
    routingTable := List.replicate ROUTING_TABLE_SIZE ⟨0, 0, 0, 0⟩
    routingTableLen := 0
    toBaseInterface := 255
    toBaseMacAddress := 0
    myAddress := 0
    baseNonce := 0
    myChildNonce := 0
    newBaseNonce := 0
    newToBaseInterface := 255
    newToBaseMacAddress := 0
    newMyChildNonce := 0 }

/-! ## Layer 4 -/

/-- The call `sendPacket(p, len, interface, macAddress)`: the driver reads `len`
bytes at `p`, which must lie inside the buffer. -/
def sendPacket (p : List Nat) (len interface macAddress : Nat) : Option (List Event) :=
  if len ≤ p.length then some [Event.sendPacket (p.take len) interface macAddress] else none

/-- The function `sendCommand(command, data, dataLen)`. The guard compares the `uint8_t`
`toBaseInterface`, promoted to `int`, with `-1`. The local `message` has room
for 40 data bytes; `memcpy` reads `dataLen` bytes of `data`. -/
def sendCommand (s : State) (command : Nat) (data : List Nat) (dataLen : Nat) :
    Option (List Event) :=
  if (s.toBaseInterface : Int) ≠ -1 then
    if dataLen ≤ 40 ∧ dataLen ≤ data.length then
      sendPacket ([DATA_TO_BASE, s.myAddress, command] ++ data.take dataLen)
        ((dataLen + 3) % 256) s.toBaseInterface s.toBaseMacAddress
    else none
  else some []

/-- The function `sendDeviceInfoCommand()`: command 0 with the packed pair
`(deviceType, deviceUniqueId)`, `sizeof(data)` being 8. -/
def sendDeviceInfoCommand (env : Env) (s : State) : Option (List Event) :=
  sendCommand s 0 (le32 env.deviceType ++ le32 env.deviceUniqueId) 8

/-- The function `handleDataPacket(message, len)`; `message` is the buffer from the layer-4
command byte on. The argument `len-1` of `onCommandReceived` is computed in
`int` and converted to the `uint8_t` parameter: for `len = 0` it is 255. -/
def handleDataPacket (env : Env) (s : State) (message : List Nat) (len : Nat) :
    Option (List Event) :=
  match message[0]? with
  | none => none
  | some command =>
    if command = 0 ∧ len ≥ 8 then sendDeviceInfoCommand env s
    else
      let dataLen : Nat := if len = 0 then 255 else len - 1
      some [Event.onCommandReceived command ((message.drop 1).take dataLen) dataLen]

/-! ## Tree routing -/

/-- The loop of `treeRouteToChild`, with `n` iterations left and loop variable `i`. -/
def treeRouteLoop (tbl : List routingTableRow) (address : Nat) :
    Nat → Nat → Option (Option (Nat × Nat))
  | 0, _ => some none
  | n + 1, i =>
    match tbl[i]? with
    | none => none
    | some r =>
      if address ≥ r.address ∧ address ≤ r.maxRoute then some (some (r.interface, r.macAddress))
      else treeRouteLoop tbl address n (i + 1)

/-- The function `treeRouteToChild(address, &interface, &macAddress)`: `some (some (i, m))`
for return value 1 with the two results, `some none` for return value 0. -/
def treeRouteToChild (s : State) (address : Nat) : Option (Option (Nat × Nat)) :=
  treeRouteLoop s.routingTable address s.routingTableLen 0

/-- The loop `for(i=0; i<childTableLen; i++)` of the `assignAddress` branch up
to its `if`: the first index whose row carries `nonce`, with `n` iterations
left and loop variable `i`. -/
def childScanLoop (tbl : List childTableRow) (nonce : Nat) :
    Nat → Nat → Option (Option Nat)
  | 0, _ => some none
  | n + 1, i =>
    match tbl[i]? with
    | none => none
    | some r => if nonce = r.childNonce then some (some i) else childScanLoop tbl nonce n (i + 1)

/-! ## Layer 3: `processIncomingPacket`

The function is one chain of `if(msgType == ...)`; each arm is a definition of
its own here, named after the packet type it handles. -/

/-- Arm `msgType == 0x00` (data message to base). -/
def onDataToBase (s : State) (message : List Nat) (len : Nat) : Option (State × List Event) :=
  if (s.toBaseInterface : Int) ≠ -1 then
    (sendPacket message len s.toBaseInterface s.toBaseMacAddress).map (fun evs => (s, evs))
  else some (s, [])

/-- Arm `msgType == 0x01` (data message to device). -/
def onDataToDevice (env : Env) (s : State) (message : List Nat) (len : Nat) :
    Option (State × List Event) :=
  match message[1]? with
  | none => none
  | some dst =>
    if dst = s.myAddress then
      (handleDataPacket env s (message.drop 2) (len - 2)).map (fun evs => (s, evs))
    else
      match treeRouteToChild s dst with
      | none => none
      | some (some (childInt, childMac)) =>
        (sendPacket message len childInt childMac).map (fun evs => (s, evs))
      | some none => some (s, [])

/-- Arm `msgType == 0x02` (beacon). `rnd` is the value that `random()` returns
when it is called. The struct `beacon` is 7 bytes, `beaconChildResponse` 9,
`toBaseKey` 8; `resp` is zero apart from its type byte and `childNonce` when
its HMAC is computed. The length of the packet is not looked at. -/
def onBeacon (env : Env) (s : State) (message : List Nat) (interface macAddress rnd : Nat) :
    Option (State × List Event) :=
  match rd16 message 1 with
  | none => none
  | some recNetworkId =>
    if recNetworkId = env.networkId then
      match rd32 message 3 with
      | none => none
      | some recBaseNonce =>
        if recBaseNonce = s.newBaseNonce then some (s, [])
        else
          let s1 : State :=
            { s with
              newBaseNonce := recBaseNonce
              newToBaseInterface := interface
              newToBaseMacAddress := macAddress
              newMyChildNonce := rnd % 2 ^ 32 }
          let broadcast : List Event :=
            (List.range env.NUM_INTERFACES).map
              (fun interf => Event.sendPacket (message.take 7) (interf % 256) 0)
          let key : List Nat := le32 s1.newBaseNonce ++ le32 env.networkKey
          let resp0 : List Nat :=
            [BEACON_CHILD_RESPONSE_TYPE] ++ le32 s1.newMyChildNonce ++ [0, 0, 0, 0]
          let hmac : Nat := env.calculateHmac resp0 5 key 8 % 2 ^ 32
          let resp : List Nat :=
            [BEACON_CHILD_RESPONSE_TYPE] ++ le32 s1.newMyChildNonce ++ le32 hmac
          some (s1, broadcast ++
            [Event.sendPacket resp s1.newToBaseInterface s1.newToBaseMacAddress])
    else some (s, [])

/-- Arm `msgType == 0x03` (beacon child response). A write to
`childTable[childTableLen]` outside the array is undefined. -/
def onBeaconChildResponse (env : Env) (s : State) (message : List Nat)
    (len interface macAddress : Nat) : Option (State × List Event) :=
  if 9 ≠ len then some (s, [])
  else
    match rd32 message 1, rd32 message 5 with
    | some recChildNonce, some recHmac =>
      let key : List Nat := le32 s.newBaseNonce ++ le32 env.networkKey
      let genHmac : Nat := env.calculateHmac message 5 key 8 % 2 ^ 32
      if genHmac ≠ recHmac then some (s, [])
      else if s.childTableLen = MAX_CHILD_TABLE_LEN then some (s, [])
      else if s.childTableLen < s.childTable.length then
        let s1 : State :=
          { s with
            childTable := s.childTable.set s.childTableLen ⟨recChildNonce, interface, macAddress⟩
            childTableLen := (s.childTableLen + 1) % 256 }
        let resp0 : List Nat :=
          [BEACON_PARENT_RESPONSE_TYPE] ++ le32 recChildNonce ++ le32 s.newMyChildNonce
            ++ [0, 0, 0, 0]
        let hmac : Nat := env.calculateHmac resp0 9 key 8 % 2 ^ 32
        let resp : List Nat :=
          [BEACON_PARENT_RESPONSE_TYPE] ++ le32 recChildNonce ++ le32 s.newMyChildNonce
            ++ le32 hmac
        some (s1, [Event.sendPacket resp s.newToBaseInterface s.newToBaseMacAddress])
      else none
    | _, _ => none

/-- Arm `msgType == 0x04` (beacon parent response). The guard compares the
`uint8_t` `newToBaseInterface`, promoted to `int`, with `-1`. -/
def onBeaconParentResponse (s : State) (message : List Nat) (len : Nat) :
    Option (State × List Event) :=
  if (s.newToBaseInterface : Int) ≠ -1 then
    (sendPacket message len s.newToBaseInterface s.newToBaseMacAddress).map (fun evs => (s, evs))
  else some (s, [])

/-- The length argument `sizeof(rec)-4` of the `calculateHmac` call in the
`assignAddress` arm: `rec` is a pointer, the subtraction is done in `size_t`. -/
def assignHmacLen (env : Env) : Nat :=
  (env.sizeofPointer + env.sizeModulus - 4) % env.sizeModulus

/-- Arm `msgType == 0x05` (assign address). The struct `assignAddress` is 11
bytes, `toDeviceKey` 12. A write to `routingTable[routingTableLen]` outside
the array is undefined. -/
def onAssignAddress (env : Env) (s : State) (message : List Nat) (len : Nat) :
    Option (State × List Event) :=
  if len ≠ 11 then some (s, [])
  else
    match rd32 message 1, rd8 message 5, rd8 message 6, rd32 message 7 with
    | some recChildNonce, some recAddress, some recMaxRoute, some recHmac =>
      let key : List Nat := le32 recChildNonce ++ le32 s.newBaseNonce ++ le32 env.networkKey
      let genHmac : Nat := env.calculateHmac message (assignHmacLen env) key 12 % 2 ^ 32
      if genHmac ≠ recHmac then some (s, [])
      else if recChildNonce = s.newMyChildNonce then
        let s1 : State :=
          { s with
            myAddress := recAddress
            baseNonce := s.newBaseNonce
            toBaseInterface := s.newToBaseInterface
            toBaseMacAddress := s.newToBaseMacAddress
            myChildNonce := s.newMyChildNonce }
        (sendDeviceInfoCommand env s1).map (fun evs => (s1, evs))
      else
        match childScanLoop s.childTable recChildNonce s.childTableLen 0 with
        | none => none
        | some (some i) =>
          match s.childTable[i]? with
          | none => none
          | some child =>
            if s.routingTableLen < s.routingTable.length then
              let s1 : State :=
                { s with
                  routingTable := s.routingTable.set s.routingTableLen
                    ⟨recAddress, recMaxRoute, child.interface, child.macAddress⟩
                  routingTableLen := (s.routingTableLen + 1) % 256
                  childTableLen := (s.childTableLen + 255) % 256 }
              match s1.routingTable[s1.routingTableLen - 1]? with
              | none => none
              | some last =>
                (sendPacket message len last.interface last.macAddress).map
                  (fun evs => (s1, evs))
            else none
        | some none =>
          match treeRouteToChild s recAddress with
          | none => none
          | some (some (interfaceRes, macAddressRes)) =>
            (sendPacket message len interfaceRes macAddressRes).map (fun evs => (s, evs))
          | some none => some (s, [])
    | _, _, _, _ => none

/-- The function `processIncomingPacket(message, len, interface, macAddress)`; `rnd` is what
`random()` returns if the call reaches it. The result is the new state and
the calls made, in order. -/
def processIncomingPacket (env : Env) (s : State) (message : List Nat)
    (len interface macAddress rnd : Nat) : Option (State × List Event) :=
  if len < 3 then some (s, [])
  else if macAddress = 0 then some (s, [])
  else
    match message[0]? with
    | none => none
    | some b0 =>
      let msgType := b0 % 16
      if msgType = 0 then onDataToBase s message len
      else if msgType = 1 then onDataToDevice env s message len
      else if msgType = 2 then onBeacon env s message interface macAddress rnd
      else if msgType = 3 then onBeaconChildResponse env s message len interface macAddress
      else if msgType = 4 then onBeaconParentResponse s message len
      else if msgType = 5 then onAssignAddress env s message len
      else some (s, [])

/-! ## Runs and reachable states -/

/-- One call of `processIncomingPacket` as seen from a layer-2 driver. -/
structure Packet where
  message : List Nat
  len : Nat
  interface : Nat
  macAddress : Nat
  rnd : Nat
deriving DecidableEq, Repr

/-- Consecutive calls of `processIncomingPacket`, the events concatenated. -/
def run (env : Env) : State → List Packet → Option (State × List Event)
  | s, [] => some (s, [])
  | s, p :: ps =>
    match processIncomingPacket env s p.message p.len p.interface p.macAddress p.rnd with
    | none => none
    | some (s1, evs) =>
      match run env s1 ps with
      | none => none
      | some (s2, evs2) => some (s2, evs ++ evs2)

/-- States the device can be in after any sequence of `processIncomingPacket`
calls from the statically initialised state. -/
inductive Reachable (env : Env) : State → Prop where
  | init : Reachable env initialState
  | step {s s1 : State} {evs : List Event} (message : List Nat)
      (len interface macAddress rnd : Nat) :
      Reachable env s →
      processIncomingPacket env s message len interface macAddress rnd = some (s1, evs) →
      Reachable env s1

/-- The rows of `childTable` in use: the first `childTableLen` elements. -/
def childRows (s : State) : List childTableRow := s.childTable.take s.childTableLen

/-- The rows of `routingTable` in use: the first `routingTableLen` elements. -/
def routingRows (s : State) : List routingTableRow := s.routingTable.take s.routingTableLen

/-- The build of the `PC_TEST` main program on a 64-bit host: the identity
constants of the source, one interface, the stub `calculateHmac`. The values
of `deviceType` and `deviceUniqueId` are placeholders for those of `MeshNet.h`. -/
def pcTestEnv : Env :=
  { networkId := 10101
    networkKey := 80808
    deviceType := 1
    deviceUniqueId := 1
    NUM_INTERFACES := 1
    calculateHmac := calculateHmac
    sizeofPointer := 8
    sizeModulus := 2 ^ 64 }

/-! ## Sample states and frames

Concrete inputs on which the statements below are evaluated. -/

/-- The state right after the first beacon of scenario S1 (`baseNonce` 5 heard
from neighbour `(0, 1)`, `random()` having returned 7). -/
def tentativeState : State :=
  { initialState with
    newBaseNonce := 5
    newToBaseInterface := 0
    newToBaseMacAddress := 1
    newMyChildNonce := 7 }

/-- A beacon of network 10101 (bytes `0x75 0x27`) carrying `baseNonce`. -/
def beaconFrame (baseNonce : Nat) : List Nat := [BEACON_TYPE, 0x75, 0x27] ++ le32 baseNonce

/-- A beacon child response for `childNonce` whose HMAC field is 100. -/
def childResponseFrame (childNonce : Nat) : List Nat :=
  [BEACON_CHILD_RESPONSE_TYPE] ++ le32 childNonce ++ le32 100

/-- An assign-address packet whose HMAC field is 100. -/
def assignAddressFrame (childNonce address maxRoute : Nat) : List Nat :=
  [ASSIGN_ADDRESS_TYPE] ++ le32 childNonce ++ [address, maxRoute] ++ le32 100

/-- A state whose child table holds five rows. -/
def fullChildState : State :=
  { tentativeState with
    childTable := [⟨11, 0, 2⟩, ⟨12, 0, 3⟩, ⟨13, 0, 4⟩, ⟨14, 0, 5⟩, ⟨15, 0, 6⟩]
    childTableLen := 5 }

/-- Scenario S1 followed by the child responses of two neighbours, `(0, 2)`
with nonce 2 and `(0, 3)` with nonce 3. -/
def twoChildrenPackets : List Packet :=
  [⟨beaconFrame 5, 7, 0, 1, 7⟩, ⟨childResponseFrame 2, 9, 0, 2, 0⟩,
   ⟨childResponseFrame 3, 9, 0, 3, 0⟩]

/-- The state that `twoChildrenPackets` leads to from `initialState`. -/
def twoChildrenState : State :=
  { tentativeState with
    childTable := [⟨2, 0, 2⟩, ⟨3, 0, 3⟩, ⟨0, 0, 0⟩, ⟨0, 0, 0⟩, ⟨0, 0, 0⟩]
    childTableLen := 2 }

/-- Scenario S1, then five neighbours that register and get an address one
after the other, then a sixth neighbour `(0, 9)` that registers with nonce 20. -/
def fullRoutingPackets : List Packet :=
  [⟨beaconFrame 5, 7, 0, 1, 7⟩,
   ⟨childResponseFrame 10, 9, 0, 2, 0⟩, ⟨assignAddressFrame 10 100 100, 11, 0, 1, 0⟩,
   ⟨childResponseFrame 11, 9, 0, 3, 0⟩, ⟨assignAddressFrame 11 101 101, 11, 0, 1, 0⟩,
   ⟨childResponseFrame 12, 9, 0, 4, 0⟩, ⟨assignAddressFrame 12 102 102, 11, 0, 1, 0⟩,
   ⟨childResponseFrame 13, 9, 0, 5, 0⟩, ⟨assignAddressFrame 13 103 103, 11, 0, 1, 0⟩,
   ⟨childResponseFrame 14, 9, 0, 6, 0⟩, ⟨assignAddressFrame 14 104 104, 11, 0, 1, 0⟩,
   ⟨childResponseFrame 20, 9, 0, 9, 0⟩]

/-- The state that `fullRoutingPackets` leads to from `initialState`: five
routing rows, one child row. -/
def fullRoutingState : State :=
  { tentativeState with
    childTable := [⟨20, 0, 9⟩, ⟨0, 0, 0⟩, ⟨0, 0, 0⟩, ⟨0, 0, 0⟩, ⟨0, 0, 0⟩]
    childTableLen := 1
    routingTable := [⟨100, 100, 0, 2⟩, ⟨101, 101, 0, 3⟩, ⟨102, 102, 0, 4⟩, ⟨103, 103, 0, 5⟩,
      ⟨104, 104, 0, 6⟩]
    routingTableLen := 5 }

/-! ## Routing intervals -/

/-- The test in the loop of `treeRouteToChild`: `address` lies in the closed
interval `[r.address, r.maxRoute]` of row `r`. -/
@[reducible] def covers (r : routingTableRow) (address : Nat) : Prop :=
  address ≥ r.address ∧ address ≤ r.maxRoute

/-- The closed intervals `[a1, m1]` and `[a2, m2]` have an address in common. -/
@[reducible] def intervalsOverlap (a1 m1 a2 m2 : Nat) : Prop := max a1 a2 ≤ min m1 m2

/-- The intervals of the routing rows in use are pairwise disjoint. -/
@[reducible] def RoutingDisjoint (s : State) : Prop :=
  (routingRows s).Pairwise
    (fun r1 r2 => ¬ intervalsOverlap r1.address r1.maxRoute r2.address r2.maxRoute)

/-- The interval `[address, maxRoute]` in bytes 5 and 6 of `message` is
disjoint from the interval of every routing row in use in state `s`. -/
def AssignDisjoint (s : State) (message : List Nat) : Prop :=
  ∀ a m, rd8 message 5 = some a → rd8 message 6 = some m →
    ∀ r ∈ routingRows s, ¬ intervalsOverlap r.address r.maxRoute a m

/-- States reachable from the initial state by calls of
`processIncomingPacket` in which every packet that makes the device add a
routing row is `AssignDisjoint` for the state it arrives in. -/
inductive ReachableDisjointly (env : Env) : State → Prop where
  | init : ReachableDisjointly env initialState
  | step {s s1 : State} (message : List Nat) (len interface macAddress rnd : Nat) :
      ReachableDisjointly env s →
      (processIncomingPacket env s message len interface macAddress rnd).map Prod.fst =
        some s1 →
      (s1.routingTableLen ≠ s.routingTableLen → AssignDisjoint s message) →
      ReachableDisjointly env s1

/-! ## More sample states -/

/-- The state after scenarios S1 and S2: joined with address 100 via `(0, 1)`. -/
def joinedState : State :=
  { tentativeState with
    myAddress := 100
    baseNonce := 5
    toBaseInterface := 0
    toBaseMacAddress := 1
    myChildNonce := 7 }

/-- A joined device with two routing rows, `[101, 120]` via `(0, 2)` and
`[121, 140]` via `(0, 3)`. -/
def routedState : State :=
  { joinedState with
    routingTable := [⟨101, 120, 0, 2⟩, ⟨121, 140, 0, 3⟩, ⟨0, 0, 0, 0⟩, ⟨0, 0, 0, 0⟩,
      ⟨0, 0, 0, 0⟩]
    routingTableLen := 2 }

/-- Scenario S1, then two children that register and are given the
overlapping ranges `[100, 120]` and `[110, 130]`. -/
def overlapPackets : List Packet :=
  [⟨beaconFrame 5, 7, 0, 1, 7⟩,
   ⟨childResponseFrame 2, 9, 0, 2, 0⟩, ⟨assignAddressFrame 2 100 120, 11, 0, 1, 0⟩,
   ⟨childResponseFrame 3, 9, 0, 3, 0⟩, ⟨assignAddressFrame 3 110 130, 11, 0, 1, 0⟩]

/-- The state that `overlapPackets` leads to from `initialState`. -/
def overlapState : State :=
  { tentativeState with
    childTable := [⟨3, 0, 3⟩, ⟨0, 0, 0⟩, ⟨0, 0, 0⟩, ⟨0, 0, 0⟩, ⟨0, 0, 0⟩]
    childTableLen := 0
    routingTable := [⟨100, 120, 0, 2⟩, ⟨110, 130, 0, 3⟩, ⟨0, 0, 0, 0⟩, ⟨0, 0, 0, 0⟩,
      ⟨0, 0, 0, 0⟩]
    routingTableLen := 2 }

/-- The state after scenario S1 and the child response of `(0, 2)` with nonce 2. -/
def oneChildState : State :=
  { tentativeState with
    childTable := [⟨2, 0, 2⟩, ⟨0, 0, 0⟩, ⟨0, 0, 0⟩, ⟨0, 0, 0⟩, ⟨0, 0, 0⟩]
    childTableLen := 1 }

/-- The state `oneChildState` after the range `[101, 120]` was assigned to nonce 2. -/
def oneRouteState : State :=
  { oneChildState with
    childTableLen := 0
    routingTable := [⟨101, 120, 0, 2⟩, ⟨0, 0, 0, 0⟩, ⟨0, 0, 0, 0⟩, ⟨0, 0, 0, 0⟩, ⟨0, 0, 0, 0⟩]
    routingTableLen := 1 }

/-- The state `oneRouteState` after the child response of `(0, 3)` with nonce 3. -/
def secondChildState : State :=
  { oneRouteState with
    childTable := [⟨3, 0, 3⟩, ⟨0, 0, 0⟩, ⟨0, 0, 0⟩, ⟨0, 0, 0⟩, ⟨0, 0, 0⟩]
    childTableLen := 1 }

/-- The state `secondChildState` after the range `[121, 140]` was assigned to nonce 3. -/
def twoRoutesState : State :=
  { secondChildState with
    childTableLen := 0
    routingTable := [⟨101, 120, 0, 2⟩, ⟨121, 140, 0, 3⟩, ⟨0, 0, 0, 0⟩, ⟨0, 0, 0, 0⟩,
      ⟨0, 0, 0, 0⟩]
    routingTableLen := 2 }

/-! ## Configurations -/

/-- The active configuration: `baseNonce`, the route to base, `myAddress` and
`myChildNonce`. -/
def activeConfig (s : State) : Nat × Nat × Nat × Nat × Nat :=
  (s.baseNonce, s.toBaseInterface, s.toBaseMacAddress, s.myAddress, s.myChildNonce)

/-- The tentative configuration: `newBaseNonce`, the tentative route to base
and `newMyChildNonce`. -/
def tentativeConfig (s : State) : Nat × Nat × Nat × Nat :=
  (s.newBaseNonce, s.newToBaseInterface, s.newToBaseMacAddress, s.newMyChildNonce)

/-- The state `routedState` with one child row in use, nonce 20 from `(0, 9)`. -/
def routedChildState : State :=
  { routedState with
    childTable := [⟨20, 0, 9⟩, ⟨0, 0, 0⟩, ⟨0, 0, 0⟩, ⟨0, 0, 0⟩, ⟨0, 0, 0⟩]
    childTableLen := 1 }

/-! ## Shape of a step -/

/-- The five ways in which a call of `processIncomingPacket` from
`(interface, macAddress)` can change the state: not at all, a new tentative
configuration (beacon), a new child row (beacon child response), the
promotion of the tentative configuration (assign address for this device), a
new routing row (assign address for a child). A proof device, not part of the
source; `step_kind` shows that every call that returns falls under it. -/
inductive StepKind (s : State) (interface macAddress rnd : Nat) : State → Prop where
  | same : StepKind s interface macAddress rnd s
  | tentative (n : Nat) : macAddress ≠ 0 → n ≠ s.newBaseNonce →
      StepKind s interface macAddress rnd
        { s with
          newBaseNonce := n
          newToBaseInterface := interface
          newToBaseMacAddress := macAddress
          newMyChildNonce := rnd % 2 ^ 32 }
  | child (c : Nat) : macAddress ≠ 0 → s.childTableLen ≠ MAX_CHILD_TABLE_LEN →
      s.childTableLen < s.childTable.length →
      StepKind s interface macAddress rnd
        { s with
          childTable := s.childTable.set s.childTableLen ⟨c, interface, macAddress⟩
          childTableLen := (s.childTableLen + 1) % 256 }
  | promote (a : Nat) :
      StepKind s interface macAddress rnd
        { s with
          myAddress := a
          baseNonce := s.newBaseNonce
          toBaseInterface := s.newToBaseInterface
          toBaseMacAddress := s.newToBaseMacAddress
          myChildNonce := s.newMyChildNonce }
  | route (c a m i : Nat) (row : childTableRow) :
      childScanLoop s.childTable c s.childTableLen 0 = some (some i) →
      s.childTable[i]? = some row →
      s.routingTableLen < s.routingTable.length →
      StepKind s interface macAddress rnd
        { s with
          routingTable := s.routingTable.set s.routingTableLen
            ⟨a, m, row.interface, row.macAddress⟩
          routingTableLen := (s.routingTableLen + 1) % 256
          childTableLen := (s.childTableLen + 255) % 256 }

end MeshNet

namespace MeshNet

/-! ## Auxiliary facts -/

/-- The bytes of a value do not change when it is first truncated to 32 bits. -/
theorem le32_mod (n : Nat) : le32 (n % 2 ^ 32) = le32 n := by
  simp only [le32]
  have e : (2 : Nat) ^ 32 = 4294967296 := by norm_num
  rw [e]
  congr 1
  · omega
  · congr 1
    · omega
    · congr 1
      · omega
      · congr 1
        omega

/-- The guard of `sendCommand` is true for every value of `toBaseInterface`, so
`sendDeviceInfoCommand` always sends its 11-byte packet. -/
theorem sendDeviceInfoCommand_eq (env : Env) (s : State) :
    sendDeviceInfoCommand env s =
      some [Event.sendPacket
        ([0, s.myAddress, 0] ++ le32 env.deviceType ++ le32 env.deviceUniqueId)
        s.toBaseInterface s.toBaseMacAddress] := by
  have h : (s.toBaseInterface : Int) ≠ -1 := by omega
  simp [sendDeviceInfoCommand, sendCommand, sendPacket, le32, DATA_TO_BASE, h]

/-- A byte inside the buffer can be read. -/
theorem rd8_of_lt (m : List Nat) (i : Nat) (h : i < m.length) : ∃ v, rd8 m i = some v :=
  ⟨m[i], by simp [rd8, List.getElem?_eq_getElem, h]⟩

/-- With at most 256 interfaces the conversion of the loop variable to
`uint8_t` changes nothing. -/
theorem broadcast_range (message : List Nat) (n : Nat) (hn : n ≤ 256) :
    (List.range n).map (fun interf => Event.sendPacket message (interf % 256) 0) =
      (List.range n).map (fun interf => Event.sendPacket message interf 0) := by
  apply List.map_congr_left
  intro i hi
  have hi2 : i < n := List.mem_range.mp hi
  have : i % 256 = i := Nat.mod_eq_of_lt (by omega)
  simp [this]

/-- Writing element `n` of an array and counting it in appends it to the
first `n` elements. -/
theorem take_set_succ {α : Type} (l : List α) (n : Nat) (v : α) (h : n < l.length) :
    (l.set n v).take (n + 1) = l.take n ++ [v] := by
  induction l generalizing n with
  | nil => simp at h
  | cons x xs ih =>
    cases n with
    | zero => simp
    | succ k =>
      have hk : k < xs.length := by simpa using h
      simp [List.set, List.take, ih k hk]

/-- What a successful scan of the child table returns: the first index in the
scanned range whose row carries the nonce. -/
theorem childScanLoop_found (tbl : List childTableRow) (nonce : Nat) :
    ∀ (n k i : Nat), childScanLoop tbl nonce n k = some (some i) →
      k ≤ i ∧ i < k + n ∧ (∃ r, tbl[i]? = some r ∧ r.childNonce = nonce) ∧
      ∀ j r, k ≤ j → j < i → tbl[j]? = some r → r.childNonce ≠ nonce := by
  intro n
  induction n with
  | zero => intro k i h; simp [childScanLoop] at h
  | succ n ih =>
    intro k i h
    simp only [childScanLoop] at h
    cases hk : tbl[k]? with
    | none => simp [hk] at h
    | some r =>
      simp only [hk] at h
      by_cases hr : nonce = r.childNonce
      · simp [hr] at h
        subst h
        refine ⟨le_refl _, by omega, ⟨r, hk, hr.symm⟩, ?_⟩
        intro j r2 h1 h2
        omega
      · simp [hr] at h
        obtain ⟨h1, h2, h3, h4⟩ := ih (k + 1) i h
        refine ⟨by omega, by omega, h3, ?_⟩
        intro j r2 hj1 hj2 hj3
        by_cases hjk : j = k
        · subst hjk
          rw [hk] at hj3
          cases hj3
          exact fun e => hr e.symm
        · exact h4 j r2 (by omega) hj2 hj3

/-- The scan of the child table finds the first row that carries the nonce. -/
theorem childScanLoop_first (tbl : List childTableRow) (nonce : Nat) :
    ∀ (n k i : Nat) (r : childTableRow), k ≤ i → i < k + n → tbl[i]? = some r →
      r.childNonce = nonce →
      (∀ j, k ≤ j → j < i → ∃ r2, tbl[j]? = some r2 ∧ r2.childNonce ≠ nonce) →
      childScanLoop tbl nonce n k = some (some i) := by
  intro n
  induction n with
  | zero => intro k i r h1 h2; omega
  | succ n ih =>
    intro k i r h1 h2 h3 h4 h5
    simp only [childScanLoop]
    by_cases hik : i = k
    · subst hik
      simp [h3, h4]
    · obtain ⟨r2, hr2, hne⟩ := h5 k (le_refl _) (by omega)
      simp only [hr2]
      have : ¬ nonce = r2.childNonce := fun e => hne e.symm
      simp only [this, if_false]
      exact ih (k + 1) i r (by omega) (by omega) h3 h4
        (fun j hj1 hj2 => h5 j (by omega) hj2)

/-- A forwarding arm that ends in `sendPacket` leaves the state as it was. -/
theorem sendPacket_map_some {s s1 : State} {p : List Nat} {len i m : Nat} {evs : List Event}
    (h : (sendPacket p len i m).map (fun e => (s, e)) = some (s1, evs)) : s1 = s := by
  cases hs : sendPacket p len i m with
  | none => simp [hs] at h
  | some e => simp [hs] at h; exact h.1.symm

/-- The arm for data messages to a device never changes the state. -/
theorem onDataToDevice_state (env : Env) (s s1 : State) (evs : List Event) (message : List Nat)
    (len : Nat) (h : onDataToDevice env s message len = some (s1, evs)) : s1 = s := by
  unfold onDataToDevice at h
  split at h
  · simp at h
  · split at h
    · cases hh : handleDataPacket env s (List.drop 2 message) (len - 2) with
      | none => simp [hh] at h
      | some e => simp [hh] at h; exact h.1.symm
    · split at h
      · simp at h
      · exact sendPacket_map_some h
      · simp at h; exact h.1.symm

/-- State change of the beacon arm. -/
theorem onBeacon_kind (env : Env) (s s1 : State) (evs : List Event) (message : List Nat)
    (interface macAddress rnd : Nat) (hmac : macAddress ≠ 0)
    (h : onBeacon env s message interface macAddress rnd = some (s1, evs)) :
    StepKind s interface macAddress rnd s1 := by
  unfold onBeacon at h
  split at h
  · simp at h
  · split at h
    · split at h
      · simp at h
      · rename_i n _
        split at h
        · simp at h; rw [← h.1]; exact StepKind.same
        · rename_i hn
          simp at h; rw [← h.1]; exact StepKind.tentative n hmac hn
    · simp at h; rw [← h.1]; exact StepKind.same

/-- State change of the beacon-child-response arm. -/
theorem onBeaconChildResponse_kind (env : Env) (s s1 : State) (evs : List Event)
    (message : List Nat) (len interface macAddress rnd : Nat) (hmac : macAddress ≠ 0)
    (h : onBeaconChildResponse env s message len interface macAddress = some (s1, evs)) :
    StepKind s interface macAddress rnd s1 := by
  unfold onBeaconChildResponse at h
  split at h
  · simp at h; rw [← h.1]; exact StepKind.same
  · split at h
    · rename_i c _ _ _
      simp only at h
      split at h
      · simp at h; rw [← h.1]; exact StepKind.same
      · split at h
        · simp at h; rw [← h.1]; exact StepKind.same
        · rename_i hfull
          split at h
          · rename_i hlt
            simp at h; rw [← h.1]; exact StepKind.child c hmac hfull hlt
          · simp at h
    · simp at h

/-- State change of the assign-address arm. -/
theorem onAssignAddress_kind (env : Env) (s s1 : State) (evs : List Event)
    (message : List Nat) (len interface macAddress rnd : Nat)
    (h : onAssignAddress env s message len = some (s1, evs)) :
    StepKind s interface macAddress rnd s1 := by
  unfold onAssignAddress at h
  split at h
  · simp at h; rw [← h.1]; exact StepKind.same
  · split at h
    · rename_i c a m _ _ _ _ _
      simp only at h
      split at h
      · simp at h; rw [← h.1]; exact StepKind.same
      · split at h
        · simp only [sendDeviceInfoCommand_eq] at h
          simp at h; rw [← h.1]; exact StepKind.promote a
        · split at h
          · simp at h
          · rename_i i hscan
            split at h
            · simp at h
            · rename_i row hrow
              split at h
              · rename_i hlt
                split at h
                · exact absurd h (by simp)
                · rw [sendPacket_map_some h]
                  exact StepKind.route c a m i row hscan hrow hlt
              · simp at h
          · split at h
            · simp at h
            · rw [sendPacket_map_some h]; exact StepKind.same
            · simp at h; rw [← h.1]; exact StepKind.same
    · simp at h

/-- Every call of `processIncomingPacket` that returns changes the state in one
of the five ways of `StepKind`. -/
theorem step_kind (env : Env) (s s1 : State) (evs : List Event) (message : List Nat)
    (len interface macAddress rnd : Nat)
    (h : processIncomingPacket env s message len interface macAddress rnd = some (s1, evs)) :
    StepKind s interface macAddress rnd s1 := by
  unfold processIncomingPacket at h
  split at h
  · simp at h; rw [← h.1]; exact StepKind.same
  · split at h
    · simp at h; rw [← h.1]; exact StepKind.same
    · rename_i hmac
      split at h
      · simp at h
      · simp only at h
        split at h
        · unfold onDataToBase at h
          split at h
          · rw [sendPacket_map_some h]; exact StepKind.same
          · simp at h; rw [← h.1]; exact StepKind.same
        · split at h
          · rw [onDataToDevice_state _ _ _ _ _ _ h]; exact StepKind.same
          · split at h
            · exact onBeacon_kind _ _ _ _ _ _ _ _ hmac h
            · split at h
              · exact onBeaconChildResponse_kind _ _ _ _ _ _ _ _ _ hmac h
              · split at h
                · unfold onBeaconParentResponse at h
                  split at h
                  · rw [sendPacket_map_some h]; exact StepKind.same
                  · simp at h; rw [← h.1]; exact StepKind.same
                · split at h
                  · exact onAssignAddress_kind _ _ _ _ _ _ _ _ _ h
                  · simp at h; rw [← h.1]; exact StepKind.same

/-- In every reachable state `childTableLen` is at most `MAX_CHILD_TABLE_LEN`. -/
theorem reachable_childTableLen_le (env : Env) (s : State) (hr : Reachable env s) :
    s.childTableLen ≤ MAX_CHILD_TABLE_LEN := by
  induction hr with
  | init => simp [initialState, MAX_CHILD_TABLE_LEN]
  | step message len interface macAddress rnd _ hstep ih =>
    have hk := step_kind _ _ _ _ _ _ _ _ _ hstep
    cases hk with
    | same => exact ih
    | tentative n _ _ => exact ih
    | child c _ hne _ =>
      simp only [MAX_CHILD_TABLE_LEN] at *
      omega
    | promote a => exact ih
    | route c a m i row hscan _ _ =>
      obtain ⟨_, hlt, _, _⟩ := childScanLoop_found _ _ _ _ _ hscan
      simp only [MAX_CHILD_TABLE_LEN] at *
      omega

/-- The state after the beacon of scenario S1 is reachable. -/
theorem tentativeState_reachable : Reachable pcTestEnv tentativeState :=
  Reachable.step (beaconFrame 5) 7 0 1 7 Reachable.init
    (show processIncomingPacket pcTestEnv initialState (beaconFrame 5) 7 0 1 7 =
      some (tentativeState,
        [Event.sendPacket [2, 0x75, 0x27, 5, 0, 0, 0] 0 0,
         Event.sendPacket [3, 7, 0, 0, 0, 100, 0, 0, 0] 0 1]) from by decide)

/-- The packets of `twoChildrenPackets` lead from the initial state to
`twoChildrenState`. -/
theorem twoChildrenState_reached :
    (run pcTestEnv initialState twoChildrenPackets).map Prod.fst = some twoChildrenState := by
  decide

/-- The packets of `fullRoutingPackets` lead from the initial state to
`fullRoutingState`. -/
theorem fullRoutingState_reached :
    (run pcTestEnv initialState fullRoutingPackets).map Prod.fst = some fullRoutingState := by
  decide

/-- The loop of `treeRouteToChild` returns the neighbour of the first row of
the scanned range that covers the address. -/
theorem treeRouteLoop_first (tbl : List routingTableRow) (address : Nat) :
    ∀ (n k i : Nat) (r : routingTableRow), k ≤ i → i < k + n → tbl[i]? = some r →
      covers r address →
      (∀ j, k ≤ j → j < i → ∃ r2, tbl[j]? = some r2 ∧ ¬ covers r2 address) →
      treeRouteLoop tbl address n k = some (some (r.interface, r.macAddress)) := by
  intro n
  induction n with
  | zero => intro k i r h1 h2; omega
  | succ n ih =>
    intro k i r h1 h2 h3 h4 h5
    simp only [treeRouteLoop]
    by_cases hik : i = k
    · subst hik
      simp only [h3]
      rw [if_pos h4]
    · obtain ⟨r2, hr2, hne⟩ := h5 k (le_refl _) (by omega)
      simp only [hr2]
      rw [if_neg hne]
      exact ih (k + 1) i r (by omega) (by omega) h3 h4
        (fun j hj1 hj2 => h5 j (by omega) hj2)

/-- The loop of `treeRouteToChild` returns 0 when no row of the scanned range
covers the address. -/
theorem treeRouteLoop_none (tbl : List routingTableRow) (address : Nat) :
    ∀ (n k : Nat),
      (∀ j, k ≤ j → j < k + n → ∃ r2, tbl[j]? = some r2 ∧ ¬ covers r2 address) →
      treeRouteLoop tbl address n k = some none := by
  intro n
  induction n with
  | zero => intro k _; rfl
  | succ n ih =>
    intro k h
    simp only [treeRouteLoop]
    obtain ⟨r2, hr2, hne⟩ := h k (le_refl _) (by omega)
    simp only [hr2]
    rw [if_neg hne]
    exact ih (k + 1) (fun j hj1 hj2 => h j (by omega) (by omega))

/-- When the loop of `treeRouteToChild` returns 0, no row of the scanned range
covers the address. -/
theorem treeRouteLoop_none_inv (tbl : List routingTableRow) (address : Nat) :
    ∀ (n k : Nat), treeRouteLoop tbl address n k = some none →
      ∀ j r2, k ≤ j → j < k + n → tbl[j]? = some r2 → ¬ covers r2 address := by
  intro n
  induction n with
  | zero => intro k _ j r2 h1 h2; omega
  | succ n ih =>
    intro k h j r2 h1 h2 h3
    simp only [treeRouteLoop] at h
    cases hk : tbl[k]? with
    | none => simp [hk] at h
    | some r =>
      simp only [hk] at h
      by_cases hc : address ≥ r.address ∧ address ≤ r.maxRoute
      · rw [if_pos hc] at h
        simp at h
      · rw [if_neg hc] at h
        by_cases hjk : j = k
        · subst hjk
          rw [hk] at h3
          cases h3
          exact hc
        · exact ih (k + 1) h j r2 (by omega) (by omega) h3

/-- Rows below the length of the array can be read. -/
theorem row_of_lt_length {α : Type} (l : List α) (j : Nat) (h : j < l.length) :
    ∃ r, l[j]? = some r :=
  ⟨l[j], List.getElem?_eq_getElem h⟩

/-- An index that can be read lies below the length of the array. -/
theorem lt_length_of_row {α : Type} (l : List α) (i : Nat) (r : α)
    (h : l[i]? = some r) : i < l.length := by
  by_contra hc
  rw [List.getElem?_eq_none (by omega)] at h
  cases h

/-- A row read at an index below `n` is among the first `n` rows. -/
theorem mem_take_of_row {α : Type} (l : List α) (i n : Nat) (r : α)
    (h : l[i]? = some r) (hi : i < n) : r ∈ l.take n :=
  List.mem_iff_getElem?.mpr ⟨i, by rw [List.getElem?_take_of_lt hi]; exact h⟩

/-- A run from a reachable state ends in a reachable state. -/
theorem reachable_of_run (env : Env) :
    ∀ (ps : List Packet) (s s1 : State), Reachable env s →
      (run env s ps).map Prod.fst = some s1 → Reachable env s1 := by
  intro ps
  induction ps with
  | nil =>
    intro s s1 hr h
    simp [run] at h
    rw [← h]; exact hr
  | cons p ps ih =>
    intro s s1 hr h
    simp only [run] at h
    cases hp : processIncomingPacket env s p.message p.len p.interface p.macAddress p.rnd with
    | none => simp [hp] at h
    | some res =>
      obtain ⟨s2, evs⟩ := res
      simp only [hp] at h
      cases hrun : run env s2 ps with
      | none => simp [hrun] at h
      | some res2 =>
        obtain ⟨s3, evs3⟩ := res2
        simp [hrun] at h
        have h2 : (run env s2 ps).map Prod.fst = some s1 := by simp [hrun, h]
        exact ih s2 s1 (Reachable.step _ _ _ _ _ hr hp) h2

/-- The state with five routing rows is reachable. -/
theorem fullRoutingState_reachable : Reachable pcTestEnv fullRoutingState :=
  reachable_of_run pcTestEnv fullRoutingPackets initialState fullRoutingState Reachable.init
    fullRoutingState_reached

/-- In every reachable state both arrays have their five elements and both
counters are at most 5. -/
theorem reachable_sizes (env : Env) (s : State) (hr : Reachable env s) :
    s.childTable.length = MAX_CHILD_TABLE_LEN ∧ s.routingTable.length = ROUTING_TABLE_SIZE ∧
    s.childTableLen ≤ MAX_CHILD_TABLE_LEN ∧ s.routingTableLen ≤ ROUTING_TABLE_SIZE := by
  induction hr with
  | init => simp [initialState, MAX_CHILD_TABLE_LEN, ROUTING_TABLE_SIZE]
  | step message len interface macAddress rnd _ hstep ih =>
    obtain ⟨h1, h2, h3, h4⟩ := ih
    have hk := step_kind _ _ _ _ _ _ _ _ _ hstep
    simp only [MAX_CHILD_TABLE_LEN, ROUTING_TABLE_SIZE] at *
    cases hk with
    | same => exact ⟨h1, h2, h3, h4⟩
    | tentative n _ _ => exact ⟨h1, h2, h3, h4⟩
    | child c _ hne hlt =>
      simp only [MAX_CHILD_TABLE_LEN] at hne
      refine ⟨by simp [h1], h2, ?_, h4⟩
      show (_ + 1) % 256 ≤ 5
      omega
    | promote a => exact ⟨h1, h2, h3, h4⟩
    | route c a m i row hscan _ hlt =>
      obtain ⟨_, hlt2, _, _⟩ := childScanLoop_found _ _ _ _ _ hscan
      refine ⟨h1, by simp [h2], ?_, ?_⟩
      · show (_ + 255) % 256 ≤ 5
        omega
      · show (_ + 1) % 256 ≤ 5
        omega

/-- Two intervals overlap exactly when some address lies in both. -/
theorem intervalsOverlap_iff (a1 m1 a2 m2 : Nat) :
    intervalsOverlap a1 m1 a2 m2 ↔ ∃ x, (a1 ≤ x ∧ x ≤ m1) ∧ (a2 ≤ x ∧ x ≤ m2) := by
  simp only [intervalsOverlap]
  constructor
  · intro h
    refine ⟨max a1 a2, ⟨le_max_left _ _, ?_⟩, ⟨le_max_right _ _, ?_⟩⟩
    · exact h.trans (min_le_left _ _)
    · exact h.trans (min_le_right _ _)
  · rintro ⟨x, ⟨h1, h2⟩, ⟨h3, h4⟩⟩
    exact (max_le h1 h3).trans (le_min h2 h4)

/-- The beacon arm leaves the routing table alone. -/
theorem onBeacon_routing (env : Env) (s s1 : State) (evs : List Event) (message : List Nat)
    (interface macAddress rnd : Nat)
    (h : onBeacon env s message interface macAddress rnd = some (s1, evs)) :
    s1.routingTable = s.routingTable ∧ s1.routingTableLen = s.routingTableLen := by
  unfold onBeacon at h
  split at h
  · simp at h
  · split at h
    · split at h
      · simp at h
      · split at h
        · simp at h; rw [← h.1]; exact ⟨rfl, rfl⟩
        · simp at h; rw [← h.1]; exact ⟨rfl, rfl⟩
    · simp at h; rw [← h.1]; exact ⟨rfl, rfl⟩

/-- The beacon-child-response arm leaves the routing table alone. -/
theorem onBeaconChildResponse_routing (env : Env) (s s1 : State) (evs : List Event)
    (message : List Nat) (len interface macAddress : Nat)
    (h : onBeaconChildResponse env s message len interface macAddress = some (s1, evs)) :
    s1.routingTable = s.routingTable ∧ s1.routingTableLen = s.routingTableLen := by
  unfold onBeaconChildResponse at h
  split at h
  · simp at h; rw [← h.1]; exact ⟨rfl, rfl⟩
  · split at h
    · simp only at h
      split at h
      · simp at h; rw [← h.1]; exact ⟨rfl, rfl⟩
      · split at h
        · simp at h; rw [← h.1]; exact ⟨rfl, rfl⟩
        · split at h
          · simp at h; rw [← h.1]; exact ⟨rfl, rfl⟩
          · simp at h
    · simp at h

/-- The assign-address arm either leaves the routing table alone or writes,
at index `routingTableLen`, a row with the address and `maxRoute` of the
packet and counts it in. -/
theorem onAssignAddress_routing (env : Env) (s s1 : State) (evs : List Event)
    (message : List Nat) (len : Nat)
    (h : onAssignAddress env s message len = some (s1, evs)) :
    (s1.routingTable = s.routingTable ∧ s1.routingTableLen = s.routingTableLen) ∨
    ∃ a m interface macAddress, rd8 message 5 = some a ∧ rd8 message 6 = some m ∧
      s.routingTableLen < s.routingTable.length ∧
      s1.routingTable = s.routingTable.set s.routingTableLen ⟨a, m, interface, macAddress⟩ ∧
      s1.routingTableLen = (s.routingTableLen + 1) % 256 := by
  unfold onAssignAddress at h
  split at h
  · simp at h; rw [← h.1]; exact Or.inl ⟨rfl, rfl⟩
  · split at h
    · rename_i c a m _ _ ha hm _
      simp only at h
      split at h
      · simp at h; rw [← h.1]; exact Or.inl ⟨rfl, rfl⟩
      · split at h
        · simp only [sendDeviceInfoCommand_eq] at h
          simp at h; rw [← h.1]; exact Or.inl ⟨rfl, rfl⟩
        · split at h
          · simp at h
          · split at h
            · simp at h
            · rename_i row _
              split at h
              · rename_i hlt
                split at h
                · exact absurd h (by simp)
                · rw [sendPacket_map_some h]
                  exact Or.inr ⟨a, m, row.interface, row.macAddress, ha, hm, hlt, rfl, rfl⟩
              · simp at h
          · split at h
            · simp at h
            · rw [sendPacket_map_some h]; exact Or.inl ⟨rfl, rfl⟩
            · simp at h; rw [← h.1]; exact Or.inl ⟨rfl, rfl⟩
    · simp at h

/-- A call of `processIncomingPacket` either leaves the routing table alone
or is the handling of an assign-address packet that writes, at index
`routingTableLen`, a row with the address and `maxRoute` of the packet. -/
theorem step_routing (env : Env) (s s1 : State) (evs : List Event) (message : List Nat)
    (len interface macAddress rnd : Nat)
    (h : processIncomingPacket env s message len interface macAddress rnd = some (s1, evs)) :
    (s1.routingTable = s.routingTable ∧ s1.routingTableLen = s.routingTableLen) ∨
    ∃ b0 a m i2 m2, message[0]? = some b0 ∧ b0 % 16 = ASSIGN_ADDRESS_TYPE ∧
      rd8 message 5 = some a ∧ rd8 message 6 = some m ∧
      s.routingTableLen < s.routingTable.length ∧
      s1.routingTable = s.routingTable.set s.routingTableLen ⟨a, m, i2, m2⟩ ∧
      s1.routingTableLen = (s.routingTableLen + 1) % 256 := by
  unfold processIncomingPacket at h
  split at h
  · simp at h; rw [← h.1]; exact Or.inl ⟨rfl, rfl⟩
  · split at h
    · simp at h; rw [← h.1]; exact Or.inl ⟨rfl, rfl⟩
    · split at h
      · simp at h
      · rename_i b0 hb0
        simp only at h
        split at h
        · unfold onDataToBase at h
          split at h
          · rw [sendPacket_map_some h]; exact Or.inl ⟨rfl, rfl⟩
          · simp at h; rw [← h.1]; exact Or.inl ⟨rfl, rfl⟩
        · split at h
          · rw [onDataToDevice_state _ _ _ _ _ _ h]; exact Or.inl ⟨rfl, rfl⟩
          · split at h
            · exact Or.inl (onBeacon_routing _ _ _ _ _ _ _ _ h)
            · split at h
              · exact Or.inl (onBeaconChildResponse_routing _ _ _ _ _ _ _ _ h)
              · split at h
                · unfold onBeaconParentResponse at h
                  split at h
                  · rw [sendPacket_map_some h]; exact Or.inl ⟨rfl, rfl⟩
                  · simp at h; rw [← h.1]; exact Or.inl ⟨rfl, rfl⟩
                · split at h
                  · rename_i h5
                    rcases onAssignAddress_routing _ _ _ _ _ _ h with hh | hh
                    · exact Or.inl hh
                    · obtain ⟨a, m, i2, m2, ha, hm, hlt, ht, hl⟩ := hh
                      exact Or.inr ⟨b0, a, m, i2, m2, hb0, h5, ha, hm, hlt, ht, hl⟩
                  · simp at h; rw [← h.1]; exact Or.inl ⟨rfl, rfl⟩

/-- Runs made of disjoint assignments stay within the reachable states. -/
theorem reachable_of_reachableDisjointly (env : Env) (s : State)
    (h : ReachableDisjointly env s) : Reachable env s := by
  induction h with
  | init => exact Reachable.init
  | @step s0 s1 message len interface macAddress rnd _ hstep _ ih =>
    cases hp : processIncomingPacket env s0 message len interface macAddress rnd with
    | none => simp [hp] at hstep
    | some res =>
      obtain ⟨s2, evs⟩ := res
      simp [hp] at hstep
      subst hstep
      exact Reachable.step _ _ _ _ _ ih hp

/-- A packet whose interval meets no routing row in use is `AssignDisjoint`. -/
theorem assignDisjoint_of_rows (s : State) (message : List Nat) (a m : Nat)
    (ha : rd8 message 5 = some a) (hm : rd8 message 6 = some m)
    (h : ∀ r ∈ routingRows s, ¬ intervalsOverlap r.address r.maxRoute a m) :
    AssignDisjoint s message := by
  intro a2 m2 ha2 hm2
  rw [ha] at ha2
  rw [hm] at hm2
  cases ha2
  cases hm2
  exact h

/-- The state `tentativeState` is reached by disjoint assignments. -/
theorem tentativeState_disjointly : ReachableDisjointly pcTestEnv tentativeState :=
  ReachableDisjointly.step (beaconFrame 5) 7 0 1 7 ReachableDisjointly.init
    (by decide) (fun h => absurd rfl h)

/-- The state `oneChildState` is reached by disjoint assignments. -/
theorem oneChildState_disjointly : ReachableDisjointly pcTestEnv oneChildState :=
  ReachableDisjointly.step (childResponseFrame 2) 9 0 2 0 tentativeState_disjointly
    (by decide) (fun h => absurd rfl h)

/-- The state `oneRouteState` is reached by disjoint assignments. -/
theorem oneRouteState_disjointly : ReachableDisjointly pcTestEnv oneRouteState :=
  ReachableDisjointly.step (assignAddressFrame 2 101 120) 11 0 1 0 oneChildState_disjointly
    (by decide) (fun _ => assignDisjoint_of_rows _ _ 101 120 rfl rfl (by decide))

/-- The state `secondChildState` is reached by disjoint assignments. -/
theorem secondChildState_disjointly : ReachableDisjointly pcTestEnv secondChildState :=
  ReachableDisjointly.step (childResponseFrame 3) 9 0 3 0 oneRouteState_disjointly
    (by decide) (fun h => absurd rfl h)

/-- The state `twoRoutesState` is reached by disjoint assignments. -/
theorem twoRoutesState_disjointly : ReachableDisjointly pcTestEnv twoRoutesState :=
  ReachableDisjointly.step (assignAddressFrame 3 121 140) 11 0 1 0
    secondChildState_disjointly
    (by decide) (fun _ => assignDisjoint_of_rows _ _ 121 140 rfl rfl (by decide))

/-- The packets of `overlapPackets` lead from the initial state to `overlapState`. -/
theorem overlapState_reached :
    (run pcTestEnv initialState overlapPackets).map Prod.fst = some overlapState := by
  decide

/-- The state with two overlapping routing rows is reachable. -/
theorem overlapState_reachable : Reachable pcTestEnv overlapState :=
  reachable_of_run pcTestEnv overlapPackets initialState overlapState Reachable.init
    overlapState_reached

/-- A data message to base is forwarded to `(toBaseInterface, toBaseMacAddress)`
in every state, whatever `toBaseInterface` holds: for a `uint8_t` the test
`toBaseInterface != -1` is always true. -/
theorem dataToBase_always_forwarded (env : Env) (s : State) (message : List Nat)
    (b0 interface macAddress rnd : Nat)
    (hlen : 3 ≤ message.length)
    (hmac : macAddress ≠ 0)
    (hb0 : message[0]? = some b0) (htype : b0 % 16 = DATA_TO_BASE) :
    processIncomingPacket env s message message.length interface macAddress rnd =
      some (s, [Event.sendPacket message s.toBaseInterface s.toBaseMacAddress]) := by
  have hl : ¬ message.length < 3 := by omega
  have h : (s.toBaseInterface : Int) ≠ -1 := by omega
  simp only [processIncomingPacket, onDataToBase, hb0, htype, DATA_TO_BASE]
  simp [hl, hmac, h, sendPacket]

/-- The function `sendCommand` sends its packet in every state, whatever
`toBaseInterface` holds. -/
theorem sendCommand_always_sends (s : State) (command : Nat) (data : List Nat) (dataLen : Nat)
    (h40 : dataLen ≤ 40) (hdata : dataLen ≤ data.length) :
    sendCommand s command data dataLen =
      some [Event.sendPacket ([0, s.myAddress, command] ++ data.take dataLen)
        s.toBaseInterface s.toBaseMacAddress] := by
  have h : (s.toBaseInterface : Int) ≠ -1 := by omega
  have hm : (dataLen + 3) % 256 = dataLen + 3 := Nat.mod_eq_of_lt (by omega)
  have hmin : min dataLen data.length = dataLen := Nat.min_eq_left hdata
  simp [sendCommand, sendPacket, DATA_TO_BASE, h, h40, hdata, hm, hmin]

/-- The beacon arm leaves the active configuration alone. -/
theorem onBeacon_active (env : Env) (s s1 : State) (evs : List Event) (message : List Nat)
    (interface macAddress rnd : Nat)
    (h : onBeacon env s message interface macAddress rnd = some (s1, evs)) :
    activeConfig s1 = activeConfig s := by
  unfold onBeacon at h
  split at h
  · simp at h
  · split at h
    · split at h
      · simp at h
      · split at h
        · simp at h; rw [← h.1]
        · simp at h; rw [← h.1]; rfl
    · simp at h; rw [← h.1]

/-- The beacon-child-response arm leaves the active configuration alone. -/
theorem onBeaconChildResponse_active (env : Env) (s s1 : State) (evs : List Event)
    (message : List Nat) (len interface macAddress : Nat)
    (h : onBeaconChildResponse env s message len interface macAddress = some (s1, evs)) :
    activeConfig s1 = activeConfig s := by
  unfold onBeaconChildResponse at h
  split at h
  · simp at h; rw [← h.1]
  · split at h
    · simp only at h
      split at h
      · simp at h; rw [← h.1]
      · split at h
        · simp at h; rw [← h.1]
        · split at h
          · simp at h; rw [← h.1]; rfl
          · simp at h
    · simp at h

/-- The assign-address arm either leaves the active configuration alone or
has received an 11-byte packet with a valid HMAC for the nonce
`newMyChildNonce` and replaces the five variables together. -/
theorem onAssignAddress_active (env : Env) (s s1 : State) (evs : List Event)
    (message : List Nat) (len : Nat)
    (h : onAssignAddress env s message len = some (s1, evs)) :
    activeConfig s1 = activeConfig s ∨
    ∃ address, len = 11 ∧ rd32 message 1 = some s.newMyChildNonce ∧
      rd8 message 5 = some address ∧
      rd32 message 7 = some (env.calculateHmac message (assignHmacLen env)
        (le32 s.newMyChildNonce ++ le32 s.newBaseNonce ++ le32 env.networkKey) 12 % 2 ^ 32) ∧
      activeConfig s1 = (s.newBaseNonce, s.newToBaseInterface, s.newToBaseMacAddress, address,
        s.newMyChildNonce) := by
  unfold onAssignAddress at h
  split at h
  · simp at h; rw [← h.1]; exact Or.inl rfl
  · rename_i hlen
    split at h
    · rename_i c a m t hc ha hm ht
      simp only at h
      split at h
      · simp at h; rw [← h.1]; exact Or.inl rfl
      · rename_i hv
        split at h
        · rename_i hme
          simp only [sendDeviceInfoCommand_eq] at h
          simp at h
          rw [← h.1]
          refine Or.inr ⟨a, by omega, ?_, ha, ?_, rfl⟩
          · rw [hc, hme]
          · rw [ht, ← hme]
            have hv2 := not_not.mp hv
            rw [← hv2]
        · split at h
          · simp at h
          · split at h
            · simp at h
            · split at h
              · split at h
                · exact absurd h (by simp)
                · rw [sendPacket_map_some h]; exact Or.inl rfl
              · simp at h
          · split at h
            · simp at h
            · rw [sendPacket_map_some h]; exact Or.inl rfl
            · simp at h; rw [← h.1]; exact Or.inl rfl
    · simp at h

/-- A call of `processIncomingPacket` either leaves the active configuration
alone or is the handling of an 11-byte assign-address packet with a valid
HMAC for the nonce `newMyChildNonce`, which replaces the five variables
together. -/
theorem step_active (env : Env) (s s1 : State) (evs : List Event) (message : List Nat)
    (len interface macAddress rnd : Nat)
    (h : processIncomingPacket env s message len interface macAddress rnd = some (s1, evs)) :
    activeConfig s1 = activeConfig s ∨
    ∃ b0 address, message[0]? = some b0 ∧ b0 % 16 = ASSIGN_ADDRESS_TYPE ∧ macAddress ≠ 0 ∧
      len = 11 ∧ rd32 message 1 = some s.newMyChildNonce ∧
      rd8 message 5 = some address ∧
      rd32 message 7 = some (env.calculateHmac message (assignHmacLen env)
        (le32 s.newMyChildNonce ++ le32 s.newBaseNonce ++ le32 env.networkKey) 12 % 2 ^ 32) ∧
      activeConfig s1 = (s.newBaseNonce, s.newToBaseInterface, s.newToBaseMacAddress, address,
        s.newMyChildNonce) := by
  unfold processIncomingPacket at h
  split at h
  · simp at h; rw [← h.1]; exact Or.inl rfl
  · split at h
    · simp at h; rw [← h.1]; exact Or.inl rfl
    · rename_i hmac
      split at h
      · simp at h
      · rename_i b0 hb0
        simp only at h
        split at h
        · unfold onDataToBase at h
          split at h
          · rw [sendPacket_map_some h]; exact Or.inl rfl
          · simp at h; rw [← h.1]; exact Or.inl rfl
        · split at h
          · rw [onDataToDevice_state _ _ _ _ _ _ h]; exact Or.inl rfl
          · split at h
            · exact Or.inl (onBeacon_active _ _ _ _ _ _ _ _ h)
            · split at h
              · exact Or.inl (onBeaconChildResponse_active _ _ _ _ _ _ _ _ h)
              · split at h
                · unfold onBeaconParentResponse at h
                  split at h
                  · rw [sendPacket_map_some h]; exact Or.inl rfl
                  · simp at h; rw [← h.1]; exact Or.inl rfl
                · split at h
                  · rename_i h5
                    rcases onAssignAddress_active _ _ _ _ _ _ h with hh | hh
                    · exact Or.inl hh
                    · obtain ⟨a, hl, hc, ha, ht, hact⟩ := hh
                      exact Or.inr ⟨b0, a, hb0, h5, hmac, hl, hc, ha, ht, hact⟩
                  · simp at h; rw [← h.1]; exact Or.inl rfl

/-- The beacon arm either leaves the tentative configuration alone or has
received the device's `networkId` and a base nonce other than `newBaseNonce`
and sets the tentative configuration; it never touches the active one. -/
theorem onBeacon_tentative (env : Env) (s s1 : State) (evs : List Event) (message : List Nat)
    (interface macAddress rnd : Nat)
    (h : onBeacon env s message interface macAddress rnd = some (s1, evs)) :
    tentativeConfig s1 = tentativeConfig s ∨
    ∃ n, rd16 message 1 = some env.networkId ∧ rd32 message 3 = some n ∧
      n ≠ s.newBaseNonce ∧
      tentativeConfig s1 = (n, interface, macAddress, rnd % 2 ^ 32) ∧
      activeConfig s1 = activeConfig s := by
  unfold onBeacon at h
  split at h
  · simp at h
  · rename_i nid hnid
    split at h
    · rename_i hnet
      split at h
      · simp at h
      · rename_i n hn
        split at h
        · simp at h; rw [← h.1]; exact Or.inl rfl
        · rename_i hne
          simp at h
          rw [← h.1]
          exact Or.inr ⟨n, by rw [hnid, hnet], hn, hne, rfl, rfl⟩
    · simp at h; rw [← h.1]; exact Or.inl rfl

/-- The beacon-child-response arm leaves the tentative configuration alone. -/
theorem onBeaconChildResponse_tentative (env : Env) (s s1 : State) (evs : List Event)
    (message : List Nat) (len interface macAddress : Nat)
    (h : onBeaconChildResponse env s message len interface macAddress = some (s1, evs)) :
    tentativeConfig s1 = tentativeConfig s := by
  unfold onBeaconChildResponse at h
  split at h
  · simp at h; rw [← h.1]
  · split at h
    · simp only at h
      split at h
      · simp at h; rw [← h.1]
      · split at h
        · simp at h; rw [← h.1]
        · split at h
          · simp at h; rw [← h.1]; rfl
          · simp at h
    · simp at h

/-- The assign-address arm leaves the tentative configuration alone. -/
theorem onAssignAddress_tentative (env : Env) (s s1 : State) (evs : List Event)
    (message : List Nat) (len : Nat)
    (h : onAssignAddress env s message len = some (s1, evs)) :
    tentativeConfig s1 = tentativeConfig s := by
  unfold onAssignAddress at h
  split at h
  · simp at h; rw [← h.1]
  · split at h
    · simp only at h
      split at h
      · simp at h; rw [← h.1]
      · split at h
        · simp only [sendDeviceInfoCommand_eq] at h
          simp at h; rw [← h.1]; rfl
        · split at h
          · simp at h
          · split at h
            · simp at h
            · split at h
              · split at h
                · exact absurd h (by simp)
                · rw [sendPacket_map_some h]; rfl
              · simp at h
          · split at h
            · simp at h
            · rw [sendPacket_map_some h]
            · simp at h; rw [← h.1]
    · simp at h

/-- A call of `processIncomingPacket` either leaves the tentative
configuration alone or is the handling of a beacon of the device's network
whose base nonce differs from `newBaseNonce`; such a call leaves the active
configuration alone. -/
theorem step_tentative (env : Env) (s s1 : State) (evs : List Event) (message : List Nat)
    (len interface macAddress rnd : Nat)
    (h : processIncomingPacket env s message len interface macAddress rnd = some (s1, evs)) :
    tentativeConfig s1 = tentativeConfig s ∨
    ∃ b0 n, message[0]? = some b0 ∧ b0 % 16 = BEACON_TYPE ∧ macAddress ≠ 0 ∧
      rd16 message 1 = some env.networkId ∧ rd32 message 3 = some n ∧
      n ≠ s.newBaseNonce ∧
      tentativeConfig s1 = (n, interface, macAddress, rnd % 2 ^ 32) ∧
      activeConfig s1 = activeConfig s := by
  unfold processIncomingPacket at h
  split at h
  · simp at h; rw [← h.1]; exact Or.inl rfl
  · split at h
    · simp at h; rw [← h.1]; exact Or.inl rfl
    · rename_i hmac
      split at h
      · simp at h
      · rename_i b0 hb0
        simp only at h
        split at h
        · unfold onDataToBase at h
          split at h
          · rw [sendPacket_map_some h]; exact Or.inl rfl
          · simp at h; rw [← h.1]; exact Or.inl rfl
        · split at h
          · rw [onDataToDevice_state _ _ _ _ _ _ h]; exact Or.inl rfl
          · split at h
            · rename_i h2
              rcases onBeacon_tentative _ _ _ _ _ _ _ _ h with hh | hh
              · exact Or.inl hh
              · obtain ⟨n, hnet, hn, hne, ht, ha⟩ := hh
                exact Or.inr ⟨b0, n, hb0, h2, hmac, hnet, hn, hne, ht, ha⟩
            · split at h
              · exact Or.inl (onBeaconChildResponse_tentative _ _ _ _ _ _ _ _ h)
              · split at h
                · unfold onBeaconParentResponse at h
                  split at h
                  · rw [sendPacket_map_some h]; exact Or.inl rfl
                  · simp at h; rw [← h.1]; exact Or.inl rfl
                · split at h
                  · exact Or.inl (onAssignAddress_tentative _ _ _ _ _ _ h)
                  · simp at h; rw [← h.1]; exact Or.inl rfl

/-- The scan of the child table returns "not found" when no row of the
scanned range carries the nonce. -/
theorem childScanLoop_none (tbl : List childTableRow) (nonce : Nat) :
    ∀ (n k : Nat),
      (∀ j, k ≤ j → j < k + n → ∃ r, tbl[j]? = some r ∧ r.childNonce ≠ nonce) →
      childScanLoop tbl nonce n k = some none := by
  intro n
  induction n with
  | zero => intro k _; rfl
  | succ n ih =>
    intro k h
    simp only [childScanLoop]
    obtain ⟨r, hr, hne⟩ := h k (le_refl _) (by omega)
    simp only [hr]
    rw [if_neg (fun e => hne e.symm)]
    exact ih (k + 1) (fun j hj1 hj2 => h j (by omega) (by omega))

/-- A beacon parent response is forwarded to
`(newToBaseInterface, newToBaseMacAddress)` in every state, whatever
`newToBaseInterface` holds: for a `uint8_t` the test
`newToBaseInterface != -1` is always true. -/
theorem parentResponse_always_forwarded (env : Env) (s : State) (message : List Nat)
    (b0 interface macAddress rnd : Nat)
    (hlen : 3 ≤ message.length)
    (hmac : macAddress ≠ 0)
    (hb0 : message[0]? = some b0) (htype : b0 % 16 = BEACON_PARENT_RESPONSE_TYPE) :
    processIncomingPacket env s message message.length interface macAddress rnd =
      some (s, [Event.sendPacket message s.newToBaseInterface s.newToBaseMacAddress]) := by
  have hl : ¬ message.length < 3 := by omega
  have h : (s.newToBaseInterface : Int) ≠ -1 := by omega
  simp only [processIncomingPacket, onBeaconParentResponse, hb0, htype,
    BEACON_PARENT_RESPONSE_TYPE]
  simp [hl, hmac, h, sendPacket]

/-- On a target whose pointers have at most 8 bytes the length handed to
`calculateHmac` for an assign-address packet is never 7. -/
theorem assignHmacLen_ne_seven (env : Env) (hp : env.sizeofPointer ≤ 8)
    (hm : 12 ≤ env.sizeModulus) : assignHmacLen env ≠ 7 := by
  unfold assignHmacLen
  by_cases h4 : 4 ≤ env.sizeofPointer
  · have e : env.sizeofPointer + env.sizeModulus - 4 =
        (env.sizeofPointer - 4) + env.sizeModulus := by omega
    rw [e, Nat.add_mod_right, Nat.mod_eq_of_lt (by omega)]
    omega
  · rw [Nat.mod_eq_of_lt (by omega)]
    omega

/-- The state after scenarios S1 and S2 is reachable. -/
theorem joinedState_reachable : Reachable pcTestEnv joinedState :=
  Reachable.step (assignAddressFrame 7 100 100) 11 0 1 0 tentativeState_reachable
    (show processIncomingPacket pcTestEnv tentativeState (assignAddressFrame 7 100 100)
        11 0 1 0 =
      some (joinedState, [Event.sendPacket [0, 100, 0, 1, 0, 0, 0, 1, 0, 0, 0] 0 1])
      from by decide)

/-! ## The claims -/

/-- C1 (self-assignment). An 11-byte assign-address packet from a neighbour
with a non-zero MAC, whose HMAC field equals the recomputed tag and whose child
nonce is the tentative `newMyChildNonce`, makes `processIncomingPacket` set
`myAddress` to the packet's address, copy `newBaseNonce`, `newToBaseInterface`,
`newToBaseMacAddress` and `newMyChildNonce` into the active configuration,
leave every other variable (both tables included) as it was, and send exactly
one packet: the 11 bytes `0, address, 0, deviceType, deviceUniqueId` to the
newly active route to base. -/
theorem C1_self_assignment (env : Env) (s : State) (message : List Nat)
    (b0 address interface macAddress rnd : Nat)
    (hlen : message.length = 11)
    (hb0 : message[0]? = some b0) (htype : b0 % 16 = ASSIGN_ADDRESS_TYPE)
    (hmac : macAddress ≠ 0)
    (hnonce : rd32 message 1 = some s.newMyChildNonce)
    (haddr : rd8 message 5 = some address)
    (hverify : rd32 message 7 = some (env.calculateHmac message (assignHmacLen env)
      (le32 s.newMyChildNonce ++ le32 s.newBaseNonce ++ le32 env.networkKey) 12 % 2 ^ 32)) :
    processIncomingPacket env s message 11 interface macAddress rnd =
      some ({ s with
              myAddress := address
              baseNonce := s.newBaseNonce
              toBaseInterface := s.newToBaseInterface
              toBaseMacAddress := s.newToBaseMacAddress
              myChildNonce := s.newMyChildNonce },
            [Event.sendPacket
              ([0, address, 0] ++ le32 env.deviceType ++ le32 env.deviceUniqueId)
              s.newToBaseInterface s.newToBaseMacAddress]) := by
  obtain ⟨m, h6⟩ := rd8_of_lt message 6 (by omega)
  simp [processIncomingPacket, onAssignAddress, hb0, htype, hmac, hnonce, haddr, hverify, h6,
    ASSIGN_ADDRESS_TYPE, sendDeviceInfoCommand_eq]

/-- Scenario S2 as an instance of C1: after the beacon of S1, the packet
assigning address 100 to nonce 7 promotes the tentative configuration and
sends the device-info command to `(0, 1)`. -/
theorem C1_self_assignment_witness :
    processIncomingPacket pcTestEnv tentativeState (assignAddressFrame 7 100 100) 11 0 1 0 =
      some ({ tentativeState with
              myAddress := 100
              baseNonce := 5
              toBaseInterface := 0
              toBaseMacAddress := 1
              myChildNonce := 7 },
            [Event.sendPacket [0, 100, 0, 1, 0, 0, 0, 1, 0, 0, 0] 0 1]) :=
  C1_self_assignment pcTestEnv tentativeState (assignAddressFrame 7 100 100) 5 100 0 1 0
    rfl rfl rfl (by decide) rfl rfl rfl

/-- C2 (beacon acceptance). A 7-byte beacon from `(interface, macAddress)`,
`macAddress` non-zero, that carries the device's `networkId` and a base nonce
other than `newBaseNonce` sets the tentative configuration to the received
nonce, that neighbour and the random value `rnd`, leaves the rest of the
state alone, and sends, in this order, the beacon unchanged to MAC 0 on the
interfaces `0 .. NUM_INTERFACES-1` and then one 9-byte beacon child response
`3, rnd, tag` to `(interface, macAddress)`, where `tag` is `calculateHmac` of
the first 5 bytes of the response under the 8-byte key
`baseNonce ++ networkKey`. -/
theorem C2_beacon_acceptance (env : Env) (s : State) (message : List Nat)
    (b0 recBaseNonce interface macAddress rnd : Nat)
    (hlen : message.length = 7)
    (hb0 : message[0]? = some b0) (htype : b0 % 16 = BEACON_TYPE)
    (hmac : macAddress ≠ 0)
    (hnet : rd16 message 1 = some env.networkId)
    (hbase : rd32 message 3 = some recBaseNonce)
    (hfresh : recBaseNonce ≠ s.newBaseNonce)
    (hrnd : rnd < 2 ^ 32)
    (hif : env.NUM_INTERFACES ≤ 256) :
    processIncomingPacket env s message 7 interface macAddress rnd =
      some ({ s with
              newBaseNonce := recBaseNonce
              newToBaseInterface := interface
              newToBaseMacAddress := macAddress
              newMyChildNonce := rnd },
            (List.range env.NUM_INTERFACES).map (fun i => Event.sendPacket message i 0) ++
            [Event.sendPacket
              ([3] ++ le32 rnd ++
                le32 (env.calculateHmac ([3] ++ le32 rnd ++ [0, 0, 0, 0]) 5
                  (le32 recBaseNonce ++ le32 env.networkKey) 8))
              interface macAddress]) := by
  have hr : rnd % 2 ^ 32 = rnd := Nat.mod_eq_of_lt hrnd
  have ht : message.take 7 = message := by
    rw [← hlen]; exact List.take_length message
  simp only [processIncomingPacket, onBeacon, hb0, htype, hnet, hbase, hr, ht, le32_mod,
    broadcast_range message _ hif, BEACON_TYPE, BEACON_CHILD_RESPONSE_TYPE]
  simp [hmac, hfresh]

/-- Scenario S1 as an instance of C2: the first beacon of a wave is
rebroadcast on the single interface and answered with a child response. -/
theorem C2_beacon_acceptance_witness :
    processIncomingPacket pcTestEnv initialState (beaconFrame 5) 7 0 1 7 =
      some (tentativeState,
            [Event.sendPacket [2, 0x75, 0x27, 5, 0, 0, 0] 0 0,
             Event.sendPacket [3, 7, 0, 0, 0, 100, 0, 0, 0] 0 1]) :=
  C2_beacon_acceptance pcTestEnv initialState (beaconFrame 5) 2 5 0 1 7
    rfl rfl rfl (by decide) rfl rfl (by decide) (by decide) (by decide)

/-- C3 (HMAC integrity). A 9-byte beacon child response, or an 11-byte
assign-address packet, whose trailing HMAC field differs from the tag that the
device recomputes for it leaves every variable as it was and causes no call of
`sendPacket` or `onCommandReceived`. -/
theorem C3_hmac_integrity (env : Env) (s : State) (message : List Nat)
    (b0 recChildNonce recHmac interface macAddress rnd : Nat)
    (hb0 : message[0]? = some b0)
    (hnonce : rd32 message 1 = some recChildNonce) :
    (b0 % 16 = BEACON_CHILD_RESPONSE_TYPE → message.length = 9 →
      rd32 message 5 = some recHmac →
      recHmac ≠ env.calculateHmac message 5
        (le32 s.newBaseNonce ++ le32 env.networkKey) 8 % 2 ^ 32 →
      processIncomingPacket env s message 9 interface macAddress rnd = some (s, [])) ∧
    (b0 % 16 = ASSIGN_ADDRESS_TYPE → message.length = 11 →
      rd32 message 7 = some recHmac →
      recHmac ≠ env.calculateHmac message (assignHmacLen env)
        (le32 recChildNonce ++ le32 s.newBaseNonce ++ le32 env.networkKey) 12 % 2 ^ 32 →
      processIncomingPacket env s message 11 interface macAddress rnd = some (s, [])) := by
  constructor
  · intro htype _ hh hne
    simp only [processIncomingPacket, onBeaconChildResponse, hb0, htype, hnonce, hh,
      BEACON_CHILD_RESPONSE_TYPE]
    have e : (2 : Nat) ^ 32 = 4294967296 := by norm_num
    rw [e] at hne
    simp [Ne.symm hne]
  · intro htype hlen hh hne
    obtain ⟨a, h5⟩ := rd8_of_lt message 5 (by omega)
    obtain ⟨m, h6⟩ := rd8_of_lt message 6 (by omega)
    simp only [processIncomingPacket, onAssignAddress, hb0, htype, hnonce, hh, h5, h6,
      ASSIGN_ADDRESS_TYPE]
    have e : (2 : Nat) ^ 32 = 4294967296 := by norm_num
    rw [e, List.append_assoc] at hne
    simp [Ne.symm hne]

/-- Two forged packets as instances of C3: a child response and an
assign-address packet whose HMAC field is 101 where the device computes 100. -/
theorem C3_hmac_integrity_witness :
    processIncomingPacket pcTestEnv tentativeState [3, 2, 0, 0, 0, 101, 0, 0, 0] 9 0 2 0 =
      some (tentativeState, []) ∧
    processIncomingPacket pcTestEnv tentativeState [5, 7, 0, 0, 0, 100, 100, 101, 0, 0, 0]
      11 0 1 0 = some (tentativeState, []) :=
  ⟨(C3_hmac_integrity pcTestEnv tentativeState [3, 2, 0, 0, 0, 101, 0, 0, 0] 3 2 101 0 2 0
      rfl rfl).1 rfl rfl rfl (by decide),
   (C3_hmac_integrity pcTestEnv tentativeState [5, 7, 0, 0, 0, 100, 100, 101, 0, 0, 0]
      5 7 101 0 1 0 rfl rfl).2 rfl rfl rfl (by decide)⟩

/-- C4 (foreign network). A beacon whose `networkId` field differs from the
device's `networkId` leaves every variable as it was and causes no call of
`sendPacket` or `onCommandReceived`, whatever its length and sender. -/
theorem C4_foreign_network (env : Env) (s : State) (message : List Nat)
    (b0 recNetworkId len interface macAddress rnd : Nat)
    (hb0 : message[0]? = some b0) (htype : b0 % 16 = BEACON_TYPE)
    (hnet : rd16 message 1 = some recNetworkId)
    (hforeign : recNetworkId ≠ env.networkId) :
    processIncomingPacket env s message len interface macAddress rnd = some (s, []) := by
  simp only [processIncomingPacket, onBeacon, hb0, htype, hnet, BEACON_TYPE]
  simp [hforeign]

/-- The beacon of the test program in `main`, whose `networkId` bytes
`0x6F 0x47` are not those of 10101, as an instance of C4. -/
theorem C4_foreign_network_witness :
    processIncomingPacket pcTestEnv initialState [2, 0x6F, 0x47, 0x11, 0x11, 0x11, 0x22]
      7 0 1 7 = some (initialState, []) :=
  C4_foreign_network pcTestEnv initialState [2, 0x6F, 0x47, 0x11, 0x11, 0x11, 0x22]
    2 0x476F 7 0 1 7 rfl rfl rfl (by decide)

/-- C5 (beacon deduplication). A beacon with the device's `networkId` whose
base nonce equals `newBaseNonce` leaves every variable as it was (no new child
nonce is drawn, the tentative route to base stays) and causes no call of
`sendPacket` or `onCommandReceived`. -/
theorem C5_beacon_deduplication (env : Env) (s : State) (message : List Nat)
    (b0 len interface macAddress rnd : Nat)
    (hb0 : message[0]? = some b0) (htype : b0 % 16 = BEACON_TYPE)
    (hnet : rd16 message 1 = some env.networkId)
    (hdup : rd32 message 3 = some s.newBaseNonce) :
    processIncomingPacket env s message len interface macAddress rnd = some (s, []) := by
  simp only [processIncomingPacket, onBeacon, hb0, htype, hnet, hdup, BEACON_TYPE]
  simp

/-- The beacon of scenario S1 heard a second time, from another neighbour, as
an instance of C5. -/
theorem C5_beacon_deduplication_witness :
    processIncomingPacket pcTestEnv tentativeState (beaconFrame 5) 7 0 3 9 =
      some (tentativeState, []) :=
  C5_beacon_deduplication pcTestEnv tentativeState (beaconFrame 5) 2 7 0 3 9 rfl rfl rfl rfl

/-- C6, evaluated. From the statically initialised state, two consecutive
beacons of the device's network that carry base nonce 0 cause no call of
`sendPacket` at all and leave the device in its initial state, with no
tentative configuration: the first of them is already taken for a duplicate,
because `newBaseNonce` starts as 0. -/
theorem C6_zero_base_nonce_dropped :
    run pcTestEnv initialState [⟨beaconFrame 0, 7, 0, 1, 7⟩, ⟨beaconFrame 0, 7, 0, 1, 9⟩] =
      some (initialState, []) := by
  decide

/-- For every base nonce other than 0 the statement of C6 does hold: of two
consecutive beacons with that nonce, from the initial state, the first is
rebroadcast on every interface and answered with one child response, the
second is dropped, and the tentative configuration carries the nonce. -/
theorem beacon_twice_nonzero (env : Env) (message : List Nat)
    (b0 recBaseNonce interface macAddress rnd interface2 macAddress2 rnd2 : Nat)
    (hlen : message.length = 7)
    (hb0 : message[0]? = some b0) (htype : b0 % 16 = BEACON_TYPE)
    (hmac : macAddress ≠ 0)
    (hnet : rd16 message 1 = some env.networkId)
    (hbase : rd32 message 3 = some recBaseNonce)
    (hnz : recBaseNonce ≠ 0)
    (hrnd : rnd < 2 ^ 32)
    (hif : env.NUM_INTERFACES ≤ 256) :
    run env initialState
        [⟨message, 7, interface, macAddress, rnd⟩, ⟨message, 7, interface2, macAddress2, rnd2⟩] =
      some ({ initialState with
              newBaseNonce := recBaseNonce
              newToBaseInterface := interface
              newToBaseMacAddress := macAddress
              newMyChildNonce := rnd },
            (List.range env.NUM_INTERFACES).map (fun i => Event.sendPacket message i 0) ++
            [Event.sendPacket
              ([3] ++ le32 rnd ++
                le32 (env.calculateHmac ([3] ++ le32 rnd ++ [0, 0, 0, 0]) 5
                  (le32 recBaseNonce ++ le32 env.networkKey) 8))
              interface macAddress]) := by
  have hr : rnd % 2 ^ 32 = rnd := Nat.mod_eq_of_lt hrnd
  have ht : message.take 7 = message := by
    rw [← hlen]; exact List.take_length message
  have hinit : initialState.newBaseNonce = 0 := rfl
  simp only [run, processIncomingPacket, onBeacon, hb0, htype, hnet, hbase, hr, ht, le32_mod,
    broadcast_range message _ hif, BEACON_TYPE, BEACON_CHILD_RESPONSE_TYPE, hinit]
  simp [hmac, hnz]

/-- C7 (child registration). In a state whose child table has fewer than
`MAX_CHILD_TABLE_LEN` rows, a 9-byte beacon child response from
`(interface, macAddress)`, `macAddress` non-zero, whose HMAC field equals the
tag recomputed under the key `newBaseNonce ++ networkKey`, writes the row
`(childNonce, interface, macAddress)` at index `childTableLen` and increments
the counter, so that the rows in use are the earlier rows followed by the new
one; every other variable stays as it was; and exactly one packet is sent, the
13-byte beacon parent response `4, childNonce, newMyChildNonce, tag` (tag
computed over its first 9 bytes under the same key), to
`(newToBaseInterface, newToBaseMacAddress)`. -/
theorem C7_child_registration (env : Env) (s : State) (message : List Nat)
    (b0 recChildNonce interface macAddress rnd : Nat)
    (hsize : s.childTable.length = MAX_CHILD_TABLE_LEN)
    (hroom : s.childTableLen < MAX_CHILD_TABLE_LEN)
    (hb0 : message[0]? = some b0) (htype : b0 % 16 = BEACON_CHILD_RESPONSE_TYPE)
    (hmac : macAddress ≠ 0)
    (hnonce : rd32 message 1 = some recChildNonce)
    (hverify : rd32 message 5 = some (env.calculateHmac message 5
      (le32 s.newBaseNonce ++ le32 env.networkKey) 8 % 2 ^ 32)) :
    processIncomingPacket env s message 9 interface macAddress rnd =
      some ({ s with
              childTable := s.childTable.set s.childTableLen
                ⟨recChildNonce, interface, macAddress⟩
              childTableLen := s.childTableLen + 1 },
            [Event.sendPacket
              ([4] ++ le32 recChildNonce ++ le32 s.newMyChildNonce ++
                le32 (env.calculateHmac
                  ([4] ++ le32 recChildNonce ++ le32 s.newMyChildNonce ++ [0, 0, 0, 0]) 9
                  (le32 s.newBaseNonce ++ le32 env.networkKey) 8))
              s.newToBaseInterface s.newToBaseMacAddress]) ∧
    childRows { s with
                childTable := s.childTable.set s.childTableLen
                  ⟨recChildNonce, interface, macAddress⟩
                childTableLen := s.childTableLen + 1 } =
      childRows s ++ [⟨recChildNonce, interface, macAddress⟩] := by
  simp only [MAX_CHILD_TABLE_LEN] at hsize hroom
  have hlt : s.childTableLen < s.childTable.length := by omega
  have hne : s.childTableLen ≠ 5 := by omega
  have hmod : (s.childTableLen + 1) % 256 = s.childTableLen + 1 := Nat.mod_eq_of_lt (by omega)
  constructor
  · simp only [processIncomingPacket, onBeaconChildResponse, hb0, htype, hnonce, hverify,
      BEACON_CHILD_RESPONSE_TYPE, BEACON_PARENT_RESPONSE_TYPE, MAX_CHILD_TABLE_LEN, hmod,
      le32_mod]
    simp [hmac, hlt, hne]
  · simp only [childRows]
    exact take_set_succ _ _ _ hlt

/-- Scenario S3 as an instance of C7: the child response of neighbour `(0, 2)`
with nonce 2 is recorded in row 0 and answered towards `(0, 1)`. -/
theorem C7_child_registration_witness :
    processIncomingPacket pcTestEnv tentativeState (childResponseFrame 2) 9 0 2 0 =
      some ({ tentativeState with
              childTable := [⟨2, 0, 2⟩, ⟨0, 0, 0⟩, ⟨0, 0, 0⟩, ⟨0, 0, 0⟩, ⟨0, 0, 0⟩]
              childTableLen := 1 },
            [Event.sendPacket [4, 2, 0, 0, 0, 7, 0, 0, 0, 100, 0, 0, 0] 0 1]) :=
  (C7_child_registration pcTestEnv tentativeState (childResponseFrame 2) 3 2 0 2 0
    rfl (by decide) rfl rfl (by decide) rfl rfl).1

/-- C8 (child-table capacity). When `childTableLen` is `MAX_CHILD_TABLE_LEN`, a
beacon child response with a valid HMAC leaves every variable as it was and
causes no call of `sendPacket`; and in every state reachable from the initial
state `childTableLen` is at most `MAX_CHILD_TABLE_LEN`. -/
theorem C8_child_table_capacity (env : Env) :
    (∀ (s : State) (message : List Nat) (b0 recChildNonce interface macAddress rnd : Nat),
      s.childTableLen = MAX_CHILD_TABLE_LEN →
      message[0]? = some b0 → b0 % 16 = BEACON_CHILD_RESPONSE_TYPE →
      rd32 message 1 = some recChildNonce →
      rd32 message 5 = some (env.calculateHmac message 5
        (le32 s.newBaseNonce ++ le32 env.networkKey) 8 % 2 ^ 32) →
      processIncomingPacket env s message 9 interface macAddress rnd = some (s, [])) ∧
    (∀ s : State, Reachable env s → s.childTableLen ≤ MAX_CHILD_TABLE_LEN) := by
  constructor
  · intro s message b0 recChildNonce interface macAddress rnd hfull hb0 htype hnonce hverify
    simp only [processIncomingPacket, onBeaconChildResponse, hb0, htype, hnonce, hverify,
      BEACON_CHILD_RESPONSE_TYPE, hfull]
    simp
  · exact reachable_childTableLen_le env

/-- A sixth child response in a state with five child rows, and the bound in
the state after scenario S1, as instances of C8. -/
theorem C8_child_table_capacity_witness :
    processIncomingPacket pcTestEnv fullChildState (childResponseFrame 16) 9 0 7 0 =
      some (fullChildState, []) ∧
    tentativeState.childTableLen ≤ MAX_CHILD_TABLE_LEN :=
  ⟨(C8_child_table_capacity pcTestEnv).1 fullChildState (childResponseFrame 16) 3 16 0 7 0
      rfl rfl rfl rfl rfl,
   (C8_child_table_capacity pcTestEnv).2 tentativeState tentativeState_reachable⟩

/-- C9, amended (addressing a child). In a state whose routing table has fewer
than 5 rows, an 11-byte assign-address packet with a valid HMAC whose child
nonce is not `newMyChildNonce` and is carried by row `i` of the child table
(and by no earlier row) writes the row
`(address, maxRoute, child.interface, child.macAddress)` at index
`routingTableLen` and increments the counter, so that the routing rows in use
are the earlier rows followed by the new one, and sends exactly one packet:
the received bytes, unchanged, to `(child.interface, child.macAddress)`. -/
theorem C9_addressing_a_child (env : Env) (s : State) (message : List Nat)
    (b0 recChildNonce address maxRoute i interface macAddress rnd : Nat) (child : childTableRow)
    (hsize : s.routingTable.length = ROUTING_TABLE_SIZE)
    (hroom : s.routingTableLen < ROUTING_TABLE_SIZE)
    (hlen : message.length = 11)
    (hb0 : message[0]? = some b0) (htype : b0 % 16 = ASSIGN_ADDRESS_TYPE)
    (hmac : macAddress ≠ 0)
    (hnonce : rd32 message 1 = some recChildNonce)
    (haddr : rd8 message 5 = some address)
    (hmax : rd8 message 6 = some maxRoute)
    (hverify : rd32 message 7 = some (env.calculateHmac message (assignHmacLen env)
      (le32 recChildNonce ++ le32 s.newBaseNonce ++ le32 env.networkKey) 12 % 2 ^ 32))
    (hother : recChildNonce ≠ s.newMyChildNonce)
    (hi : i < s.childTableLen)
    (hrow : s.childTable[i]? = some child)
    (hmatch : child.childNonce = recChildNonce)
    (hfirst : ∀ j r, j < i → s.childTable[j]? = some r → r.childNonce ≠ recChildNonce) :
    processIncomingPacket env s message 11 interface macAddress rnd =
      some ({ s with
              routingTable := s.routingTable.set s.routingTableLen
                ⟨address, maxRoute, child.interface, child.macAddress⟩
              routingTableLen := s.routingTableLen + 1
              childTableLen := (s.childTableLen + 255) % 256 },
            [Event.sendPacket message child.interface child.macAddress]) ∧
    routingRows { s with
                  routingTable := s.routingTable.set s.routingTableLen
                    ⟨address, maxRoute, child.interface, child.macAddress⟩
                  routingTableLen := s.routingTableLen + 1
                  childTableLen := (s.childTableLen + 255) % 256 } =
      routingRows s ++ [⟨address, maxRoute, child.interface, child.macAddress⟩] := by
  simp only [ROUTING_TABLE_SIZE] at hsize hroom
  have hlt : s.routingTableLen < s.routingTable.length := by omega
  have hmod : (s.routingTableLen + 1) % 256 = s.routingTableLen + 1 :=
    Nat.mod_eq_of_lt (by omega)
  have hil : i < s.childTable.length := by
    by_contra hc
    rw [List.getElem?_eq_none (by omega)] at hrow
    cases hrow
  have hscan : childScanLoop s.childTable recChildNonce s.childTableLen 0 = some (some i) := by
    apply childScanLoop_first _ _ _ _ _ child (Nat.zero_le _) (by omega) hrow hmatch
    intro j _ hj
    have hjl : j < s.childTable.length := by omega
    exact ⟨s.childTable[j], List.getElem?_eq_getElem hjl,
      hfirst j _ hj (List.getElem?_eq_getElem hjl)⟩
  have ht : message.take 11 = message := by
    rw [← hlen]; exact List.take_length message
  constructor
  · simp only [processIncomingPacket, onAssignAddress, hb0, htype, hnonce, haddr, hmax,
      hverify, ASSIGN_ADDRESS_TYPE, hscan, hrow, hmod]
    simp [hmac, hother, hlt, sendPacket, hlen, ht]
  · simp only [routingRows]
    exact take_set_succ _ _ _ hlt


/-- Scenario S4 with the second of two registered children as an instance of
C9: the packet for nonce 3 adds the routing row `(101, 120, 0, 3)` and is
forwarded to `(0, 3)`. -/
theorem C9_addressing_a_child_witness :
    processIncomingPacket pcTestEnv twoChildrenState (assignAddressFrame 3 101 120) 11 0 1 0 =
      some ({ twoChildrenState with
              routingTable := [⟨101, 120, 0, 3⟩, ⟨0, 0, 0, 0⟩, ⟨0, 0, 0, 0⟩, ⟨0, 0, 0, 0⟩,
                ⟨0, 0, 0, 0⟩]
              routingTableLen := 1
              childTableLen := 1 },
            [Event.sendPacket (assignAddressFrame 3 101 120) 0 3]) :=
  (C9_addressing_a_child pcTestEnv twoChildrenState (assignAddressFrame 3 101 120)
    5 3 101 120 1 0 1 0 ⟨3, 0, 3⟩ rfl (by decide) rfl rfl rfl (by decide) rfl rfl rfl rfl
    (by decide) (by decide) rfl rfl
    (by
      intro j r hj h
      obtain rfl : j = 0 := by omega
      cases h
      decide)).1

/-- C9 as stated fails when the routing table is full. In `fullRoutingState`,
which has five routing rows, the packet assigning address 110 to nonce 20 has
a valid HMAC, is not for the device itself and matches child row 0, yet
`processIncomingPacket` appends nothing and sends nothing: the write to
`routingTable[5]` is outside the array and the call has no defined result. -/
theorem C9_counterexample_full_routing_table :
    fullRoutingState.routingTableLen = ROUTING_TABLE_SIZE ∧
    rd32 (assignAddressFrame 20 110 110) 1 = some 20 ∧
    rd32 (assignAddressFrame 20 110 110) 7 =
      some (pcTestEnv.calculateHmac (assignAddressFrame 20 110 110) (assignHmacLen pcTestEnv)
        (le32 20 ++ le32 fullRoutingState.newBaseNonce ++ le32 pcTestEnv.networkKey) 12
        % 2 ^ 32) ∧
    20 ≠ fullRoutingState.newMyChildNonce ∧
    fullRoutingState.childTable[0]? = some ⟨20, 0, 9⟩ ∧
    0 < fullRoutingState.childTableLen ∧
    processIncomingPacket pcTestEnv fullRoutingState (assignAddressFrame 20 110 110) 11 0 1 0 =
      none := by
  decide

/-- C10, evaluated. With the child rows `(2, 0, 2)` and `(3, 0, 3)`, the
assign-address packet for nonce 2 is forwarded to `(0, 2)` and gives the
routing row `(101, 120, 0, 2)`, but the child rows in use afterwards are
`(2, 0, 2)` alone: the matched row is still there and the other row is gone,
because the code only decrements `childTableLen`. -/
theorem C10_last_row_removed :
    childRows twoChildrenState = [⟨2, 0, 2⟩, ⟨3, 0, 3⟩] ∧
    (processIncomingPacket pcTestEnv twoChildrenState (assignAddressFrame 2 101 120)
        11 0 1 0).map (fun r => (childRows r.1, routingRows r.1, r.2)) =
      some ([⟨2, 0, 2⟩], [⟨101, 120, 0, 2⟩],
        [Event.sendPacket (assignAddressFrame 2 101 120) 0 2]) := by
  decide

/-- C11, evaluated. The state `fullRoutingState`, with five routing rows in
use, is reachable from the initial state; there the assign-address packet for
nonce 20, which has a valid HMAC and matches child row 0, does not return with
an unchanged table and no packet sent: the write to `routingTable[5]` is
outside the array and the call has no defined result. -/
theorem C11_overflow_write_out_of_bounds :
    Reachable pcTestEnv fullRoutingState ∧
    (routingRows fullRoutingState).length = ROUTING_TABLE_SIZE ∧
    run pcTestEnv fullRoutingState [⟨assignAddressFrame 20 110 110, 11, 0, 1, 0⟩] = none :=
  ⟨fullRoutingState_reachable, by decide, by decide⟩

/-- C12, amended (routing-table disjointness). In every state reachable from
the initial state by calls of `processIncomingPacket` in which each packet
that adds a routing row carries an interval `[address, maxRoute]` disjoint
from the intervals of the routing rows in use when it arrives, the intervals
of any two distinct routing rows in use are disjoint. -/
theorem C12_routing_disjointness (env : Env) (s : State) (h : ReachableDisjointly env s) :
    RoutingDisjoint s := by
  induction h with
  | init => simp [RoutingDisjoint, routingRows, initialState]
  | @step s0 s1 message len interface macAddress rnd hr0 hstep hdis ih =>
    cases hp : processIncomingPacket env s0 message len interface macAddress rnd with
    | none => simp [hp] at hstep
    | some res =>
      obtain ⟨s2, evs⟩ := res
      simp [hp] at hstep
      subst hstep
      obtain ⟨_, h2, _, h4⟩ :=
        reachable_sizes env s0 (reachable_of_reachableDisjointly env s0 hr0)
      simp only [ROUTING_TABLE_SIZE] at h2 h4
      rcases step_routing _ _ _ _ _ _ _ _ _ hp with ⟨ht, hl⟩ | hh
      · simp only [RoutingDisjoint, routingRows, ht, hl]
        exact ih
      · obtain ⟨b0, a, m, i2, m2, _, _, ha, hm, hlt, ht, hl⟩ := hh
        have hmod : (s0.routingTableLen + 1) % 256 = s0.routingTableLen + 1 :=
          Nat.mod_eq_of_lt (by omega)
        have hchg : s2.routingTableLen ≠ s0.routingTableLen := by
          rw [hl, hmod]; omega
        simp only [RoutingDisjoint, routingRows, ht, hl, hmod]
        rw [take_set_succ _ _ _ hlt, List.pairwise_append]
        refine ⟨ih, by simp, ?_⟩
        intro r hr r2 hr2
        simp at hr2
        subst hr2
        exact hdis hchg a m ha hm r hr

/-- The state reached when two children are given the ranges `[101, 120]` and
`[121, 140]`, as an instance of C12. -/
theorem C12_routing_disjointness_witness : RoutingDisjoint twoRoutesState :=
  C12_routing_disjointness pcTestEnv twoRoutesState twoRoutesState_disjointly

/-- C12 as stated fails. The state `overlapState` is reachable from the
initial state (two children are given the ranges `[100, 120]` and
`[110, 130]` by packets with a valid HMAC), and its two routing rows overlap. -/
theorem C12_counterexample_overlapping_rows :
    Reachable pcTestEnv overlapState ∧
    routingRows overlapState = [⟨100, 120, 0, 2⟩, ⟨110, 130, 0, 3⟩] ∧
    ¬ RoutingDisjoint overlapState :=
  ⟨overlapState_reachable, by decide, by decide⟩

/-- C13 (forwarding to a device). For a data message to a device of at least
3 bytes, from a non-zero MAC, whose destination byte is not `myAddress`:
if row `i` is the first routing row in use that covers the destination, then
`treeRouteToChild` returns 1 with that row's `(interface, macAddress)`, the
state is unchanged and exactly one packet is sent, the received bytes
unchanged, to that neighbour; if no routing row in use covers the
destination, the state is unchanged and nothing is sent; and
`treeRouteToChild` returns 0 exactly when no routing row in use covers the
destination. -/
theorem C13_data_to_device_forwarding (env : Env) (s : State) (message : List Nat)
    (b0 dstAddr interface macAddress rnd : Nat)
    (hlen : 3 ≤ message.length)
    (hmac : macAddress ≠ 0)
    (hb0 : message[0]? = some b0) (htype : b0 % 16 = DATA_TO_DEVICE)
    (hdst : message[1]? = some dstAddr)
    (hother : dstAddr ≠ s.myAddress)
    (hrows : s.routingTableLen ≤ s.routingTable.length) :
    (∀ (i : Nat) (r : routingTableRow), i < s.routingTableLen → s.routingTable[i]? = some r →
      covers r dstAddr →
      (∀ j r2, j < i → s.routingTable[j]? = some r2 → ¬ covers r2 dstAddr) →
      treeRouteToChild s dstAddr = some (some (r.interface, r.macAddress)) ∧
      processIncomingPacket env s message message.length interface macAddress rnd =
        some (s, [Event.sendPacket message r.interface r.macAddress])) ∧
    ((∀ j r2, j < s.routingTableLen → s.routingTable[j]? = some r2 → ¬ covers r2 dstAddr) →
      processIncomingPacket env s message message.length interface macAddress rnd =
        some (s, [])) ∧
    (treeRouteToChild s dstAddr = some none ↔
      ∀ j r2, j < s.routingTableLen → s.routingTable[j]? = some r2 → ¬ covers r2 dstAddr) := by
  have hl : ¬ message.length < 3 := by omega
  have hnone : (∀ j r2, j < s.routingTableLen → s.routingTable[j]? = some r2 →
      ¬ covers r2 dstAddr) → treeRouteToChild s dstAddr = some none := by
    intro h
    apply treeRouteLoop_none
    intro j _ hj
    obtain ⟨r2, hr2⟩ := row_of_lt_length s.routingTable j (by omega)
    exact ⟨r2, hr2, h j r2 (by omega) hr2⟩
  refine ⟨?_, ?_, ?_, hnone⟩
  · intro i r hi hr hc hfirst
    have hil := lt_length_of_row _ _ _ hr
    have hroute : treeRouteToChild s dstAddr = some (some (r.interface, r.macAddress)) := by
      apply treeRouteLoop_first _ _ _ _ i r (Nat.zero_le _) (by omega) hr hc
      intro j _ hj
      obtain ⟨r2, hr2⟩ := row_of_lt_length s.routingTable j (by omega)
      exact ⟨r2, hr2, hfirst j r2 hj hr2⟩
    refine ⟨hroute, ?_⟩
    simp only [processIncomingPacket, onDataToDevice, hb0, htype, hdst, DATA_TO_DEVICE, hroute]
    simp [hl, hmac, hother, sendPacket]
  · intro h
    simp only [processIncomingPacket, onDataToDevice, hb0, htype, hdst, DATA_TO_DEVICE,
      hnone h]
    simp [hl, hmac, hother]
  · intro h j r2 hj hr2
    exact treeRouteLoop_none_inv _ _ _ _ h j r2 (Nat.zero_le _) (by omega) hr2

/-- Scenarios S5 and S6 as instances of C13: with the rows `[101, 120]` and
`[121, 140]`, a message for 125 goes to `(0, 3)` and a message for 200 is
dropped. -/
theorem C13_data_to_device_forwarding_witness :
    (treeRouteToChild routedState 125 = some (some (0, 3)) ∧
      processIncomingPacket pcTestEnv routedState [1, 125, 7] 3 0 1 0 =
        some (routedState, [Event.sendPacket [1, 125, 7] 0 3])) ∧
    processIncomingPacket pcTestEnv routedState [1, 200, 7] 3 0 1 0 = some (routedState, []) :=
  ⟨(C13_data_to_device_forwarding pcTestEnv routedState [1, 125, 7] 1 125 0 1 0
      (by decide) (by decide) rfl rfl rfl (by decide) (by decide)).1 1 ⟨121, 140, 0, 3⟩
      (by decide) rfl (by decide)
      (by
        intro j r2 hj h
        obtain rfl : j = 0 := by omega
        cases h
        decide),
   (C13_data_to_device_forwarding pcTestEnv routedState [1, 200, 7] 1 200 0 1 0
      (by decide) (by decide) rfl rfl rfl (by decide) (by decide)).2.1
      (by
        intro j r2 hj h
        have hj2 : j < 2 := hj
        interval_cases j <;> cases h <;> decide)⟩

/-- C14 (local delivery). For a data message to a device of at least 3 bytes,
from a non-zero MAC, whose destination byte is `myAddress`, the state is
unchanged and nothing is forwarded to a child; when the command byte is 0 and
the layer-4 packet (the bytes from offset 2 on) has at least 8 bytes, exactly
one packet is sent, `0, myAddress, 0, deviceType, deviceUniqueId`, to
`(toBaseInterface, toBaseMacAddress)`; when the command byte is not 0,
`onCommandReceived` is called exactly once, with the command byte, the bytes
from offset 3 on and the length `len - 3`, and no packet is sent. -/
theorem C14_local_delivery (env : Env) (s : State) (message : List Nat)
    (b0 command interface macAddress rnd : Nat)
    (hlen : 3 ≤ message.length)
    (hmac : macAddress ≠ 0)
    (hb0 : message[0]? = some b0) (htype : b0 % 16 = DATA_TO_DEVICE)
    (hdst : message[1]? = some s.myAddress)
    (hcmd : message[2]? = some command) :
    (command = 0 → 8 ≤ message.length - 2 →
      processIncomingPacket env s message message.length interface macAddress rnd =
        some (s, [Event.sendPacket
          ([0, s.myAddress, 0] ++ le32 env.deviceType ++ le32 env.deviceUniqueId)
          s.toBaseInterface s.toBaseMacAddress])) ∧
    (command ≠ 0 →
      processIncomingPacket env s message message.length interface macAddress rnd =
        some (s, [Event.onCommandReceived command (message.drop 3) (message.length - 3)])) := by
  have hl : ¬ message.length < 3 := by omega
  have hd : (List.drop 2 message)[0]? = some command := by
    rw [List.getElem?_drop]; exact hcmd
  have ht : List.take (message.length - 2 - 1) (List.drop 1 (List.drop 2 message)) =
      List.drop 3 message := by
    rw [List.drop_drop]
    apply List.take_of_length_le
    simp
    omega
  have hne : ¬ message.length - 2 = 0 := by omega
  constructor
  · intro hc hlong
    simp only [processIncomingPacket, onDataToDevice, handleDataPacket, hb0, htype, hdst, hd,
      DATA_TO_DEVICE, sendDeviceInfoCommand_eq]
    simp [hl, hmac, hc, hlong]
  · intro hc
    simp only [processIncomingPacket, onDataToDevice, handleDataPacket, hb0, htype, hdst, hd,
      DATA_TO_DEVICE, if_neg hne, ht]
    have e : message.length - 2 - 1 = message.length - 3 := by omega
    simp [hl, hmac, hc, e]

/-- A command 0 request of 10 bytes and a command 7 message of 5 bytes for the
joined device, as instances of C14. -/
theorem C14_local_delivery_witness :
    processIncomingPacket pcTestEnv joinedState [1, 100, 0, 1, 2, 3, 4, 5, 6, 7] 10 0 1 0 =
      some (joinedState, [Event.sendPacket [0, 100, 0, 1, 0, 0, 0, 1, 0, 0, 0] 0 1]) ∧
    processIncomingPacket pcTestEnv joinedState [1, 100, 7, 8, 9] 5 0 1 0 =
      some (joinedState, [Event.onCommandReceived 7 [8, 9] 2]) :=
  ⟨(C14_local_delivery pcTestEnv joinedState [1, 100, 0, 1, 2, 3, 4, 5, 6, 7] 1 0 0 1 0
      (by decide) (by decide) rfl rfl rfl rfl).1 rfl (by decide),
   (C14_local_delivery pcTestEnv joinedState [1, 100, 7, 8, 9] 1 7 0 1 0
      (by decide) (by decide) rfl rfl rfl rfl).2 (by decide)⟩

/-- C15, evaluated. A data message for the joined device that carries command
0 and fewer than 8 layer-4 bytes is handed to `onCommandReceived` with command
0: the test `*message == 0x00 && len >= sizeof(deviceInfoCommand)` fails on
the length and the `else` arm calls the application. -/
theorem C15_command_zero_reaches_application :
    processIncomingPacket pcTestEnv joinedState [1, 100, 0] 3 0 1 0 =
      some (joinedState, [Event.onCommandReceived 0 [] 0]) ∧
    processIncomingPacket pcTestEnv joinedState [1, 100, 0, 8, 9] 5 0 1 0 =
      some (joinedState, [Event.onCommandReceived 0 [8, 9] 2]) := by
  decide

/-- C16, evaluated. In the initial state, where `toBaseInterface` holds the
value 255 of "undefined", a data message to base is not dropped: it is sent to
interface 255 with MAC 0. -/
theorem C16_forwarded_without_route_to_base :
    initialState.toBaseInterface = 255 ∧
    processIncomingPacket pcTestEnv initialState [0, 5, 7] 3 0 1 0 =
      some (initialState, [Event.sendPacket [0, 5, 7] 255 0]) := by
  decide

/-- C17, evaluated. In the initial state, where `toBaseInterface` holds the
value 255 of "undefined", `sendCommand(7, {1, 2}, 2)` sends the packet
`0, 0, 7, 1, 2` to interface 255 with MAC 0. -/
theorem C17_sent_without_route_to_base :
    initialState.toBaseInterface = 255 ∧
    sendCommand initialState 7 [1, 2] 2 = some [Event.sendPacket [0, 0, 7, 1, 2] 255 0] := by
  decide

/-- C18 (pre-dispatch rejection). A call with `len < 3`, or with MAC 0, or
with a type code (byte 0 modulo 16) above 5 leaves every variable as it was
and causes no call of `sendPacket` or `onCommandReceived`. -/
theorem C18_pre_dispatch_rejection (env : Env) (s : State) (message : List Nat)
    (len interface macAddress rnd : Nat)
    (h : len < 3 ∨ macAddress = 0 ∨ ∃ b0, message[0]? = some b0 ∧ 5 < b0 % 16) :
    processIncomingPacket env s message len interface macAddress rnd = some (s, []) := by
  unfold processIncomingPacket
  by_cases h1 : len < 3
  · simp [h1]
  · by_cases h2 : macAddress = 0
    · simp [h2]
    · rcases h with h | h | ⟨b0, hb0, hb⟩
      · exact absurd h h1
      · exact absurd h h2
      · have e0 : ¬ b0 % 16 = 0 := by omega
        have e1 : ¬ b0 % 16 = 1 := by omega
        have e2 : ¬ b0 % 16 = 2 := by omega
        have e3 : ¬ b0 % 16 = 3 := by omega
        have e4 : ¬ b0 % 16 = 4 := by omega
        have e5 : ¬ b0 % 16 = 5 := by omega
        simp [h1, h2, hb0, e0, e1, e2, e3, e4, e5]

/-- A 2-byte packet, a packet from MAC 0 and a packet of type 6, as instances
of C18. -/
theorem C18_pre_dispatch_rejection_witness :
    processIncomingPacket pcTestEnv joinedState [1, 100] 2 0 1 0 = some (joinedState, []) ∧
    processIncomingPacket pcTestEnv joinedState [1, 100, 7] 3 0 0 0 = some (joinedState, []) ∧
    processIncomingPacket pcTestEnv joinedState [6, 100, 7] 3 0 1 0 = some (joinedState, []) :=
  ⟨C18_pre_dispatch_rejection pcTestEnv joinedState [1, 100] 2 0 1 0 (Or.inl (by decide)),
   C18_pre_dispatch_rejection pcTestEnv joinedState [1, 100, 7] 3 0 0 0 (Or.inr (Or.inl rfl)),
   C18_pre_dispatch_rejection pcTestEnv joinedState [6, 100, 7] 3 0 1 0
     (Or.inr (Or.inr ⟨6, rfl, by decide⟩))⟩

/-- C19, evaluated. A beacon handed over with `len = 8` is accepted like one
of 7 bytes (tentative configuration set, beacon rebroadcast, child response
sent), and a beacon parent response of 3 bytes is forwarded to the tentative
route to base: neither arm looks at `len`. -/
theorem C19_wrong_length_accepted :
    processIncomingPacket pcTestEnv initialState [2, 0x75, 0x27, 5, 0, 0, 0, 99] 8 0 1 7 =
      some (tentativeState,
        [Event.sendPacket [2, 0x75, 0x27, 5, 0, 0, 0] 0 0,
         Event.sendPacket [3, 7, 0, 0, 0, 100, 0, 0, 0] 0 1]) ∧
    processIncomingPacket pcTestEnv tentativeState [4, 1, 2] 3 0 2 0 =
      some (tentativeState, [Event.sendPacket [4, 1, 2] 0 1]) := by
  decide

/-- C20 (broadcast MAC exclusion). In every state reachable from the initial
state no child row in use and no routing row in use has `macAddress` 0, and
whenever `toBaseInterface`, or `newToBaseInterface`, is not the value 255 of
"undefined", the MAC address that goes with it is not 0. -/
theorem C20_broadcast_mac_exclusion (env : Env) (s : State) (hr : Reachable env s) :
    (∀ r ∈ childRows s, r.macAddress ≠ 0) ∧
    (∀ r ∈ routingRows s, r.macAddress ≠ 0) ∧
    (s.toBaseInterface ≠ 255 → s.toBaseMacAddress ≠ 0) ∧
    (s.newToBaseInterface ≠ 255 → s.newToBaseMacAddress ≠ 0) := by
  induction hr with
  | init =>
    simp [initialState, childRows, routingRows]
  | @step s0 s1 evs message len interface macAddress rnd hr0 hstep ih =>
    obtain ⟨hc, hrt, ha, ht⟩ := ih
    obtain ⟨h1, h2, h3, h4⟩ := reachable_sizes env s0 hr0
    simp only [MAX_CHILD_TABLE_LEN, ROUTING_TABLE_SIZE] at h1 h2 h3 h4
    have hk := step_kind _ _ _ _ _ _ _ _ _ hstep
    cases hk with
    | same => exact ⟨hc, hrt, ha, ht⟩
    | tentative n hmac _ => exact ⟨hc, hrt, ha, fun _ => hmac⟩
    | child c hmac hne hlt =>
      refine ⟨?_, hrt, ha, ht⟩
      intro r hmem
      have hm : (s0.childTableLen + 1) % 256 = s0.childTableLen + 1 :=
        Nat.mod_eq_of_lt (by omega)
      simp only [childRows, hm] at hmem
      rw [take_set_succ _ _ _ hlt] at hmem
      rcases List.mem_append.mp hmem with h | h
      · exact hc r h
      · simp at h
        rw [h]
        exact hmac
    | promote a => exact ⟨hc, hrt, ht, ht⟩
    | route c a m i row hscan hrow hlt =>
      obtain ⟨_, hlt2, _, _⟩ := childScanLoop_found _ _ _ _ _ hscan
      have hrowmem : row ∈ childRows s0 := mem_take_of_row _ _ _ _ hrow (by omega)
      refine ⟨?_, ?_, ha, ht⟩
      · intro r hmem
        apply hc r
        have hsub : (s0.childTableLen + 255) % 256 ≤ s0.childTableLen := by omega
        exact List.take_subset_take_left _ hsub hmem
      · intro r hmem
        have hm : (s0.routingTableLen + 1) % 256 = s0.routingTableLen + 1 :=
          Nat.mod_eq_of_lt (by omega)
        simp only [routingRows, hm] at hmem
        rw [take_set_succ _ _ _ hlt] at hmem
        rcases List.mem_append.mp hmem with h | h
        · exact hrt r h
        · simp at h
          rw [h]
          exact hc row hrowmem

/-- The reachable state with five routing rows and one child row, as an instance
of C20. -/
theorem C20_broadcast_mac_exclusion_witness :
    (∀ r ∈ childRows fullRoutingState, r.macAddress ≠ 0) ∧
    (∀ r ∈ routingRows fullRoutingState, r.macAddress ≠ 0) ∧
    (fullRoutingState.toBaseInterface ≠ 255 → fullRoutingState.toBaseMacAddress ≠ 0) ∧
    (fullRoutingState.newToBaseInterface ≠ 255 → fullRoutingState.newToBaseMacAddress ≠ 0) :=
  C20_broadcast_mac_exclusion pcTestEnv fullRoutingState fullRoutingState_reachable

/-- C21 (atomic cut-over). A call of `processIncomingPacket` that returns
either leaves `baseNonce`, `toBaseInterface`, `toBaseMacAddress`, `myAddress`
and `myChildNonce` all as they were, or is the handling of an 11-byte
assign-address packet from a non-zero MAC whose HMAC field equals the
recomputed tag and whose child nonce is `newMyChildNonce`, and then the five
variables hold `newBaseNonce`, `newToBaseInterface`, `newToBaseMacAddress`, the
packet's address and `newMyChildNonce`; and every such packet does set the
five variables in this way. -/
theorem C21_atomic_cut_over (env : Env) (s : State) (message : List Nat)
    (len interface macAddress rnd : Nat) :
    (∀ (s1 : State) (evs : List Event),
      processIncomingPacket env s message len interface macAddress rnd = some (s1, evs) →
      activeConfig s1 = activeConfig s ∨
      ∃ b0 address, message[0]? = some b0 ∧ b0 % 16 = ASSIGN_ADDRESS_TYPE ∧ macAddress ≠ 0 ∧
        len = 11 ∧ rd32 message 1 = some s.newMyChildNonce ∧
        rd8 message 5 = some address ∧
        rd32 message 7 = some (env.calculateHmac message (assignHmacLen env)
          (le32 s.newMyChildNonce ++ le32 s.newBaseNonce ++ le32 env.networkKey) 12
          % 2 ^ 32) ∧
        activeConfig s1 = (s.newBaseNonce, s.newToBaseInterface, s.newToBaseMacAddress,
          address, s.newMyChildNonce)) ∧
    (∀ b0 address, message.length = 11 → len = 11 →
      message[0]? = some b0 → b0 % 16 = ASSIGN_ADDRESS_TYPE → macAddress ≠ 0 →
      rd32 message 1 = some s.newMyChildNonce →
      rd8 message 5 = some address →
      rd32 message 7 = some (env.calculateHmac message (assignHmacLen env)
        (le32 s.newMyChildNonce ++ le32 s.newBaseNonce ++ le32 env.networkKey) 12
        % 2 ^ 32) →
      ∃ s1 evs,
        processIncomingPacket env s message len interface macAddress rnd = some (s1, evs) ∧
        activeConfig s1 = (s.newBaseNonce, s.newToBaseInterface, s.newToBaseMacAddress,
          address, s.newMyChildNonce)) := by
  constructor
  · intro s1 evs h
    exact step_active _ _ _ _ _ _ _ _ _ h
  · intro b0 address hlen hl hb0 htype hmac hnonce haddr hverify
    subst hl
    obtain ⟨m, h6⟩ := rd8_of_lt message 6 (by omega)
    refine ⟨{ s with
              myAddress := address
              baseNonce := s.newBaseNonce
              toBaseInterface := s.newToBaseInterface
              toBaseMacAddress := s.newToBaseMacAddress
              myChildNonce := s.newMyChildNonce },
            [Event.sendPacket
              ([0, address, 0] ++ le32 env.deviceType ++ le32 env.deviceUniqueId)
              s.newToBaseInterface s.newToBaseMacAddress], ?_, rfl⟩
    simp [processIncomingPacket, onAssignAddress, hb0, htype, hmac, hnonce, haddr, hverify, h6,
      ASSIGN_ADDRESS_TYPE, sendDeviceInfoCommand_eq]

/-- The beacon of scenario S1, which leaves the active configuration alone,
and the packet of scenario S2, which sets it to `(5, 0, 1, 100, 7)`, as
instances of C21. -/
theorem C21_atomic_cut_over_witness :
    (activeConfig tentativeState = activeConfig initialState ∨
      ∃ b0 address, (beaconFrame 5)[0]? = some b0 ∧ b0 % 16 = ASSIGN_ADDRESS_TYPE ∧
        (1 : Nat) ≠ 0 ∧ (7 : Nat) = 11 ∧
        rd32 (beaconFrame 5) 1 = some initialState.newMyChildNonce ∧
        rd8 (beaconFrame 5) 5 = some address ∧
        rd32 (beaconFrame 5) 7 = some (pcTestEnv.calculateHmac (beaconFrame 5)
          (assignHmacLen pcTestEnv)
          (le32 initialState.newMyChildNonce ++ le32 initialState.newBaseNonce ++
            le32 pcTestEnv.networkKey) 12 % 2 ^ 32) ∧
        activeConfig tentativeState = (initialState.newBaseNonce,
          initialState.newToBaseInterface, initialState.newToBaseMacAddress, address,
          initialState.newMyChildNonce)) ∧
    (∃ s1 evs,
      processIncomingPacket pcTestEnv tentativeState (assignAddressFrame 7 100 100) 11 0 1 0 =
        some (s1, evs) ∧
      activeConfig s1 = (5, 0, 1, 100, 7)) :=
  ⟨(C21_atomic_cut_over pcTestEnv initialState (beaconFrame 5) 7 0 1 7).1 tentativeState
      [Event.sendPacket [2, 0x75, 0x27, 5, 0, 0, 0] 0 0,
       Event.sendPacket [3, 7, 0, 0, 0, 100, 0, 0, 0] 0 1] (by decide),
   (C21_atomic_cut_over pcTestEnv tentativeState (assignAddressFrame 7 100 100) 11 0 1 0).2
      5 100 rfl rfl rfl rfl (by decide) rfl rfl rfl⟩

/-- C23 (transit assign-address). For an 11-byte assign-address packet from a
non-zero MAC with a valid HMAC whose child nonce is neither
`newMyChildNonce` nor the nonce of a child row in use: if row `i` is the first
routing row in use that covers the packet's address, the state is unchanged
and exactly one packet is sent, the received bytes unchanged, to that row's
`(interface, macAddress)`; if no routing row in use covers the address, the
state is unchanged and nothing is sent. -/
theorem C23_transit_assign_address (env : Env) (s : State) (message : List Nat)
    (b0 recChildNonce address interface macAddress rnd : Nat)
    (hlen : message.length = 11)
    (hmac : macAddress ≠ 0)
    (hb0 : message[0]? = some b0) (htype : b0 % 16 = ASSIGN_ADDRESS_TYPE)
    (hnonce : rd32 message 1 = some recChildNonce)
    (haddr : rd8 message 5 = some address)
    (hverify : rd32 message 7 = some (env.calculateHmac message (assignHmacLen env)
      (le32 recChildNonce ++ le32 s.newBaseNonce ++ le32 env.networkKey) 12 % 2 ^ 32))
    (hother : recChildNonce ≠ s.newMyChildNonce)
    (hchildren : s.childTableLen ≤ s.childTable.length)
    (hnochild : ∀ j r, j < s.childTableLen → s.childTable[j]? = some r →
      r.childNonce ≠ recChildNonce)
    (hrows : s.routingTableLen ≤ s.routingTable.length) :
    (∀ (i : Nat) (r : routingTableRow), i < s.routingTableLen → s.routingTable[i]? = some r →
      covers r address →
      (∀ j r2, j < i → s.routingTable[j]? = some r2 → ¬ covers r2 address) →
      processIncomingPacket env s message 11 interface macAddress rnd =
        some (s, [Event.sendPacket message r.interface r.macAddress])) ∧
    ((∀ j r2, j < s.routingTableLen → s.routingTable[j]? = some r2 → ¬ covers r2 address) →
      processIncomingPacket env s message 11 interface macAddress rnd = some (s, [])) := by
  obtain ⟨m, h6⟩ := rd8_of_lt message 6 (by omega)
  have hscan : childScanLoop s.childTable recChildNonce s.childTableLen 0 = some none := by
    apply childScanLoop_none
    intro j _ hj
    obtain ⟨r, hr⟩ := row_of_lt_length s.childTable j (by omega)
    exact ⟨r, hr, hnochild j r (by omega) hr⟩
  have ht : message.take 11 = message := by
    rw [← hlen]; exact List.take_length message
  constructor
  · intro i r hi hr hc hfirst
    have hil := lt_length_of_row _ _ _ hr
    have hroute : treeRouteToChild s address = some (some (r.interface, r.macAddress)) := by
      apply treeRouteLoop_first _ _ _ _ i r (Nat.zero_le _) (by omega) hr hc
      intro j _ hj
      obtain ⟨r2, hr2⟩ := row_of_lt_length s.routingTable j (by omega)
      exact ⟨r2, hr2, hfirst j r2 hj hr2⟩
    simp only [processIncomingPacket, onAssignAddress, hb0, htype, hnonce, haddr, h6, hverify,
      ASSIGN_ADDRESS_TYPE, hscan, hroute]
    simp [hmac, hother, sendPacket, hlen, ht]
  · intro h
    have hroute : treeRouteToChild s address = some none := by
      apply treeRouteLoop_none
      intro j _ hj
      obtain ⟨r2, hr2⟩ := row_of_lt_length s.routingTable j (by omega)
      exact ⟨r2, hr2, h j r2 (by omega) hr2⟩
    simp only [processIncomingPacket, onAssignAddress, hb0, htype, hnonce, haddr, h6, hverify,
      ASSIGN_ADDRESS_TYPE, hscan, hroute]
    simp [hmac, hother]

/-- Packets for the unknown nonce 30, one with an address inside `[121, 140]`
and one with an address no row covers, as instances of C23. -/
theorem C23_transit_assign_address_witness :
    processIncomingPacket pcTestEnv routedChildState (assignAddressFrame 30 125 125) 11 0 1 0 =
      some (routedChildState, [Event.sendPacket (assignAddressFrame 30 125 125) 0 3]) ∧
    processIncomingPacket pcTestEnv routedChildState (assignAddressFrame 30 200 200) 11 0 1 0 =
      some (routedChildState, []) :=
  ⟨(C23_transit_assign_address pcTestEnv routedChildState (assignAddressFrame 30 125 125)
      5 30 125 0 1 0 rfl (by decide) rfl rfl rfl rfl rfl (by decide) (by decide)
      (by
        intro j r hj h
        have hj1 : j < 1 := hj
        obtain rfl : j = 0 := by omega
        cases h
        decide)
      (by decide)).1 1 ⟨121, 140, 0, 3⟩ (by decide) rfl (by decide)
      (by
        intro j r2 hj h
        obtain rfl : j = 0 := by omega
        cases h
        decide),
   (C23_transit_assign_address pcTestEnv routedChildState (assignAddressFrame 30 200 200)
      5 30 200 0 1 0 rfl (by decide) rfl rfl rfl rfl rfl (by decide) (by decide)
      (by
        intro j r hj h
        have hj1 : j < 1 := hj
        obtain rfl : j = 0 := by omega
        cases h
        decide)
      (by decide)).2
      (by
        intro j r2 hj h
        have hj2 : j < 2 := hj
        interval_cases j <;> cases h <;> decide)⟩

/-- C24, evaluated. In the initial state, where `newToBaseInterface` holds the
value 255 of "undefined", a 13-byte beacon parent response is not dropped: it
is sent to interface 255 with MAC 0. -/
theorem C24_relayed_without_tentative_route :
    initialState.newToBaseInterface = 255 ∧
    processIncomingPacket pcTestEnv initialState [4, 2, 0, 0, 0, 7, 0, 0, 0, 100, 0, 0, 0]
        13 0 2 0 =
      some (initialState,
        [Event.sendPacket [4, 2, 0, 0, 0, 7, 0, 0, 0, 100, 0, 0, 0] 255 0]) := by
  decide

/-- C25, amended (tentative and active configuration). A successful
self-assignment leaves the tentative configuration as it was, so that right
after it `baseNonce`, `toBaseInterface`, `toBaseMacAddress` and
`myChildNonce` equal their tentative counterparts; and a call that returns
changes the tentative configuration only when it handles a beacon of the
device's network from a non-zero MAC whose base nonce differs from the
previous `newBaseNonce`, in which case the active configuration stays as it
was. -/
theorem C25_tentative_kept_on_promotion (env : Env) (s : State) (message : List Nat)
    (len interface macAddress rnd : Nat) :
    (∀ b0 address, message.length = 11 → len = 11 →
      message[0]? = some b0 → b0 % 16 = ASSIGN_ADDRESS_TYPE → macAddress ≠ 0 →
      rd32 message 1 = some s.newMyChildNonce →
      rd8 message 5 = some address →
      rd32 message 7 = some (env.calculateHmac message (assignHmacLen env)
        (le32 s.newMyChildNonce ++ le32 s.newBaseNonce ++ le32 env.networkKey) 12
        % 2 ^ 32) →
      ∃ s1 evs,
        processIncomingPacket env s message len interface macAddress rnd = some (s1, evs) ∧
        tentativeConfig s1 = tentativeConfig s ∧
        s1.baseNonce = s1.newBaseNonce ∧
        s1.toBaseInterface = s1.newToBaseInterface ∧
        s1.toBaseMacAddress = s1.newToBaseMacAddress ∧
        s1.myChildNonce = s1.newMyChildNonce) ∧
    (∀ (s1 : State) (evs : List Event),
      processIncomingPacket env s message len interface macAddress rnd = some (s1, evs) →
      tentativeConfig s1 = tentativeConfig s ∨
      ∃ b0 n, message[0]? = some b0 ∧ b0 % 16 = BEACON_TYPE ∧ macAddress ≠ 0 ∧
        rd16 message 1 = some env.networkId ∧ rd32 message 3 = some n ∧
        n ≠ s.newBaseNonce ∧
        tentativeConfig s1 = (n, interface, macAddress, rnd % 2 ^ 32) ∧
        activeConfig s1 = activeConfig s) := by
  constructor
  · intro b0 address hlen hl hb0 htype hmac hnonce haddr hverify
    subst hl
    obtain ⟨m, h6⟩ := rd8_of_lt message 6 (by omega)
    refine ⟨{ s with
              myAddress := address
              baseNonce := s.newBaseNonce
              toBaseInterface := s.newToBaseInterface
              toBaseMacAddress := s.newToBaseMacAddress
              myChildNonce := s.newMyChildNonce },
            [Event.sendPacket
              ([0, address, 0] ++ le32 env.deviceType ++ le32 env.deviceUniqueId)
              s.newToBaseInterface s.newToBaseMacAddress], ?_, rfl, rfl, rfl, rfl, rfl⟩
    simp [processIncomingPacket, onAssignAddress, hb0, htype, hmac, hnonce, haddr, hverify, h6,
      ASSIGN_ADDRESS_TYPE, sendDeviceInfoCommand_eq]
  · intro s1 evs h
    exact step_tentative _ _ _ _ _ _ _ _ _ h

/-- Scenario S2 as an instance of C25: after the promotion the tentative
configuration is still `(5, 0, 1, 7)` and the active one agrees with it. -/
theorem C25_tentative_kept_on_promotion_witness :
    ∃ s1 evs,
      processIncomingPacket pcTestEnv tentativeState (assignAddressFrame 7 100 100) 11 0 1 0 =
        some (s1, evs) ∧
      tentativeConfig s1 = tentativeConfig tentativeState ∧
      s1.baseNonce = s1.newBaseNonce ∧
      s1.toBaseInterface = s1.newToBaseInterface ∧
      s1.toBaseMacAddress = s1.newToBaseMacAddress ∧
      s1.myChildNonce = s1.newMyChildNonce :=
  (C25_tentative_kept_on_promotion pcTestEnv tentativeState (assignAddressFrame 7 100 100)
    11 0 1 0).1 5 100 rfl rfl rfl rfl (by decide) rfl rfl rfl

/-- C25 as stated fails. The state after scenarios S1 and S2 is reachable, its
tentative route to base is defined, and its tentative base nonce equals the
active one. -/
theorem C25_counterexample_after_self_assignment :
    Reachable pcTestEnv joinedState ∧
    joinedState.newToBaseInterface ≠ 255 ∧
    joinedState.newBaseNonce = joinedState.baseNonce :=
  ⟨joinedState_reachable, by decide, by decide⟩

end MeshNet
